import Mathlib

/-!
Verification of the Solar-AI plant simulator (solar plant simulation and
anomaly engine, plus the AI-assistant conversation-history module).

The JavaScript source is shallowly embedded:
* pure numeric code becomes Lean functions over `ℚ` (or `ℝ` where the
  source uses `Math.sin`);
* the single mutable `state` object becomes an explicit `SimState` record
  threaded through the operations;
* every `Math.random()` / `Date.now()` call site becomes an explicit
  parameter of the operation that performs it, so each operation is a
  deterministic function of its inputs;
* DOM reads/writes and canvas rendering are dropped (they do not touch the
  simulation state); alert/log messages are kept as appended entries whose
  text is abbreviated where the source interpolates numbers.
-/

namespace SolarAI

/-- Anomaly types, from the `anomalyTypes` tables in the source
(`panel-fault`, `dust-accumulation`, `dust-storm`, `inverter-overload`,
`cloud-cover`). -/
inductive AnomalyType where
  | panelFault
  | dustAccumulation
  | dustStorm
  | inverterOverload
  | cloudCover
deriving DecidableEq, Repr

open AnomalyType

/-! ## Generation calculator (`calculateSolarGeneration`, part_000 lines 358-391)

The source computes over IEEE doubles with `Math.sin`; we embed it over `ℝ`.
The pieces of `state` that the function reads are passed as arguments:
the current clock decomposed as a fractional hour
(`time.getHours() + time.getMinutes() / 60`), the plant `capacity`, the
environmental factors, the `anomalyOverrides` pair, and the anomaly list
(each anomaly's `impact` string already parsed to its numeric percent, as
`parseFloat(anomaly.impact.replace('%',''))` does). -/

/-- The fields of an anomaly that `calculateSolarGeneration` reads: the
`active` flag, the `type`, and the numeric impact percent parsed from the
`impact` string (`'15%'` ↦ 15).  The `anomaly.impact &&` truthiness guard
of the source is modelled by `impactPresent`. -/
structure GenAnomaly where
  active : Bool
  type : AnomalyType
  impactPresent : Bool
  impactPercent : ℝ

/-- The per-anomaly derating accumulator of `calculateSolarGeneration`
(lines 381-388): starting from 1, every active anomaly with an impact whose
type is neither `dust-storm` nor `cloud-cover` multiplies the accumulator
by `(1 - impactValue)` where `impactValue = impactPercent / 100`. -/
noncomputable def anomalyFactor (anomalies : List GenAnomaly) : ℝ :=
  anomalies.foldl
    (fun acc a =>
      if a.active = true ∧ a.impactPresent = true ∧
          a.type ≠ dustStorm ∧ a.type ≠ cloudCover then
        acc * (1 - a.impactPercent / 100)
      else acc) 1

/-- `calculateSolarGeneration` (part_000 lines 358-391).  `hour` is the
fractional hour of the queried time, `capacity` is `state.capacity`,
`temperature`/`dustLevel`/`cloudCover`/`humidity` are
`state.environmentalFactors` (humidity is never read by the source
function, and is kept only to mirror the record), `overrideDust` /
`overrideCloud` are `state.anomalyOverrides`, and `anomalies` is
`state.anomalies`. -/
noncomputable def calculateSolarGeneration (hour capacity temperature dustLevel
    cloudCover _humidity : ℝ) (overrideDust overrideCloud : Option ℝ)
    (anomalies : List GenAnomaly) : ℝ :=
  let baseGeneration : ℝ :=
    if 6 ≤ hour ∧ hour ≤ 18 then
      Real.sin ((hour - 6) / 12 * Real.pi) * capacity
    else 0
  let effectiveDust := overrideDust.getD dustLevel
  let effectiveCloud := overrideCloud.getD cloudCover
  let tempFactor : ℝ := 1 - max 0 ((temperature - 25) * 0.004)
  let dustFactor : ℝ := 1 - effectiveDust / 100 * 0.3
  let cloudFactor : ℝ := 1 - effectiveCloud / 100 * 0.5
  baseGeneration * tempFactor * dustFactor * cloudFactor *
    anomalyFactor anomalies

/-! ## The simulation state

The single mutable `state` object (part_000 lines 4-42), restricted to the
fields the simulation core reads or writes.  Numeric values are embedded as
`ℚ` (the JavaScript arithmetic on them is exact +, -, ×, `Math.max`,
`Math.min` on decimal literals).  Times are `ℕ` milliseconds;
`getHours()` is `hoursOf`.  The `currentGeneration` value written by
`updateSimulation` is the real-valued `calculateSolarGeneration` result;
operations of this state machine receive it as an explicit parameter `gen`
(the generation calculator itself is verified separately above).  The
background-simulated environment set and drone/scan state are omitted: no
operation modelled here reads them. -/

/-- Equipment status strings (`'healthy' | 'degraded' | 'faulty'`). -/
inductive EquipmentStatus where
  | healthy
  | degraded
  | faulty
deriving DecidableEq, Repr

open EquipmentStatus

/-- Who resolved an anomaly (`'user' | 'auto-timeout'`). -/
inductive ResolvedBy where
  | user
  | autoTimeout
deriving DecidableEq, Repr

/-- One entry of `state.equipmentHealth` (initialised at part_000 lines
59-78; the `anomaly` claim field is first written by the anomaly paths). -/
structure Equipment where
  name : String
  health : ℚ
  status : EquipmentStatus
  issues : List String
  anomaly : Option ℕ
deriving DecidableEq, Repr

/-- One entry of `state.anomalies`.  `impact` keeps the source's percent
string (`'15%'`); `timestamp`, `lastEscalation`, `resolvedAt` are
millisecond times.  `causedBy` is only set by the dust-storm cascade. -/
structure Anomaly where
  id : ℕ
  type : AnomalyType
  name : String
  location : String
  impact : String
  severity : String
  timestamp : ℕ
  active : Bool
  escalationLevel : ℕ
  lastEscalation : ℕ
  affectedEquipment : List String
  resolvedAt : Option ℕ
  resolvedBy : Option ResolvedBy
  causedBy : Option String
deriving DecidableEq, Repr

/-- The simulation state (part_000 lines 4-42), restricted as described
above.  `equipmentHealth` is the JS object as an insertion-ordered
association list. -/
structure SimState where
  capacity : ℚ
  currentGeneration : ℚ
  dailyCumulative : ℚ
  lastUpdateTime : ℕ
  envTemperature : ℚ
  envDust : ℚ
  envCloud : ℚ
  envHumidity : ℚ
  manualEnvironmentControl : Bool
  overrideDust : Option ℚ
  overrideCloud : Option ℚ
  anomalies : List Anomaly
  equipmentHealth : List (String × Equipment)
  alerts : List (String × String)
  logs : List (String × String)
deriving DecidableEq, Repr

/-- `time.getHours()` for a millisecond clock value. -/
def hoursOf (t : ℕ) : ℕ :=
  t / 3600000 % 24

/-- Association-list read (`object[id]`). -/
def lookupL (l : List (String × Equipment)) (id : String) : Option Equipment :=
  (l.find? (fun p => p.1 = id)).map Prod.snd

/-- Association-list in-place write (`object[id] = f(object[id])`). -/
def updateL (l : List (String × Equipment)) (id : String)
    (f : Equipment → Equipment) : List (String × Equipment) :=
  l.map (fun p => if p.1 = id then (p.1, f p.2) else p)

/-- `state.equipmentHealth[id]` (read). -/
def lookupEq (s : SimState) (id : String) : Option Equipment :=
  lookupL s.equipmentHealth id

/-- In-place mutation of `state.equipmentHealth[id]`; absent ids are left
untouched (every call site in the source only writes ids it has just read
or built from the fixed registry). -/
def updateEq (s : SimState) (id : String) (f : Equipment → Equipment) :
    SimState :=
  { s with equipmentHealth := updateL s.equipmentHealth id f }

/-- `addAlert(message, severity)`: appends to the alert list. -/
def addAlert (s : SimState) (message severity : String) : SimState :=
  { s with alerts := s.alerts ++ [(message, severity)] }

/-- `log(message, category)`: appends to `state.logs`. -/
def addLog (s : SimState) (message category : String) : SimState :=
  { s with logs := s.logs ++ [(message, category)] }

/-- Does some active anomaly's `affectedEquipment` list contain `id`
(the existing-claim test of `monitorEquipmentHealth` /
`degradeEquipmentHealth`, part_000 lines 1002-1004 and 1034-1036)? -/
def hasActiveClaim (s : SimState) (id : String) : Bool :=
  s.anomalies.any (fun a => a.active && a.affectedEquipment.contains id)

/-- `updateSimulation` (part_000 lines 394-417).  `now` is
`getCurrentTime()`; `gen` is the value `calculateSolarGeneration(now)`
that line 396 stores into `state.currentGeneration`. -/
def updateSimulationQ (now : ℕ) (gen : ℚ) (s : SimState) : SimState :=
  let s := { s with currentGeneration := gen }
  let lastHour := hoursOf s.lastUpdateTime
  let currentHour := hoursOf now
  if lastHour = 23 ∧ currentHour = 0 then
    let s := { s with dailyCumulative := 0 }
    let s := addAlert s "Midnight - Daily cumulative reset" "info"
    { s with lastUpdateTime := now }
  else
    let timeDiff : ℚ := ((now : ℚ) - (s.lastUpdateTime : ℚ)) / 3600000
    let s := { s with dailyCumulative :=
        s.dailyCumulative + s.currentGeneration * timeDiff }
    { s with lastUpdateTime := now }

/-- `advanceTime` (part_000 lines 305-329): adds one hour to the current
time `cur`, zeroes the cumulative when the new hour is 0, then runs
`updateSimulation` at the new time. -/
def advanceTimeQ (cur : ℕ) (gen : ℚ) (s : SimState) : SimState :=
  let newTime := cur + 3600000
  let s :=
    if hoursOf newTime = 0 then
      addAlert { s with dailyCumulative := 0 }
        "Midnight - Daily cumulative reset" "info"
    else s
  let s := addLog s "Time advanced" "system"
  let s := addAlert s "Time advanced" "info"
  updateSimulationQ newTime gen s

/-- The name/location/impact/severity table of `generateAnomaly`
(part_000 lines 588-619).  `locRand` is the `Math.floor(Math.random()*k)`
draw of the random location. -/
def anomalyTypeData (ty : AnomalyType) (locRand : ℕ) :
    String × String × String × String :=
  match ty with
  | panelFault =>
      ("Panel Fault", "Section " ++ toString (locRand + 1), "15%", "critical")
  | dustAccumulation =>
      ("Dust Accumulation", "Section " ++ toString (locRand + 1), "10%",
       "warning")
  | dustStorm => ("Dust Storm", "Entire facility", "30%", "warning")
  | inverterOverload =>
      ("Inverter Overload", "Inverter " ++ toString (locRand + 1), "20%",
       "critical")
  | cloudCover => ("Cloud Cover Spike", "Regional", "40%", "info")

/-- The random-panel claiming loop shared by `generateAnomaly`
(lines 658-685) and `generateDustAccumulationAfterStorm` (lines 2200-2217):
`numToAffect` iterations, each drawing a random index into the list of
panel ids (`picks` holds the draws), skipping panels already collected,
and claiming each newly collected panel for anomaly `aid` with the given
status, issues and health reduction (health floored at 20).  Returns the
collected `affectedEquipment` list together with the updated state.  The
loop also stops at `panelIds.length` iterations, as the source's
`i < numToAffect && i < panelIds.length` bound does. -/
def claimPanelStep (aid : ℕ) (newStatus : EquipmentStatus)
    (newIssues : List String) (healthReduction : ℚ) (panelIds : List String)
    (picks : List ℕ) (acc : List String × SimState) (i : ℕ) :
    List String × SimState :=
  match panelIds.get? (picks.getD i 0) with
  | none => acc
  | some equipmentId =>
    if equipmentId ∉ acc.1 ∧ (lookupEq acc.2 equipmentId).isSome then
      (acc.1 ++ [equipmentId],
       updateEq acc.2 equipmentId (fun e =>
         { e with status := newStatus, issues := newIssues,
                  anomaly := some aid,
                  health := max 20 (e.health - healthReduction) }))
    else acc

/-- `a.startsWith(p)` (spelled out on the character list so that concrete
instances evaluate inside the kernel). -/
def strStartsWith (a p : String) : Bool :=
  p.data.isPrefixOf a.data

/-- `equipmentId.split('-')[0]`: the id's prefix before the first dash. -/
def idKind (id : String) : String :=
  ⟨id.data.takeWhile (fun c => c ≠ '-')⟩

/-- The id list the panel-claiming loop draws from
(`Object.keys(state.equipmentHealth).filter(id => id.startsWith('Panel-'))`). -/
def panelIdsOf (s : SimState) : List String :=
  (s.equipmentHealth.map Prod.fst).filter (fun id => strStartsWith id "Panel-")

def claimRandomPanels (aid : ℕ) (newStatus : EquipmentStatus)
    (newIssues : List String) (healthReduction : ℚ) (numToAffect : ℕ)
    (picks : List ℕ) (s : SimState) : List String × SimState :=
  let panelIds := panelIdsOf s
  (List.range (min numToAffect panelIds.length)).foldl
    (claimPanelStep aid newStatus newIssues healthReduction panelIds picks)
    ([], s)

/-- `generateAnomaly` (part_000 lines 579-716), the manual spawning path,
with the empty-selection guard dropped (`ty` is always a chosen type).
Randoms: `locRand` is the location draw of the type table, `startRow` /
`startCol` the cluster position draws of lines 651-652 (the `clusterSize`
draw of line 653 is computed but never used by the source and is omitted),
`numToAffect` the 2-4 panel-count draw of line 660, `picks` the random
panel-index draws of line 664.  The anomaly id is `Date.now()`, i.e.
`now`. -/
def generateAnomaly (now : ℕ) (ty : AnomalyType)
    (locRand startRow startCol numToAffect : ℕ) (picks : List ℕ) (gen : ℚ)
    (s : SimState) : SimState :=
  let data := anomalyTypeData ty locRand
  let aid := now
  -- environmental overrides (lines 634-646)
  let s :=
    if ty = dustStorm then
      updateSimulationQ now gen
        { s with overrideDust := some (min 100 (s.envDust + 50)) }
    else if ty = cloudCover then
      updateSimulationQ now gen
        { s with overrideCloud := some (min 100 (s.envCloud + 60)) }
    else s
  -- affected equipment (lines 648-699)
  let claimed :=
    if ty = panelFault ∨ ty = dustAccumulation then
      let healthReduction : ℚ := if ty = dustAccumulation then 30 else 50
      let newStatus := if ty = dustAccumulation then degraded else faulty
      let newIssues :=
        if ty = dustAccumulation then ["dust accumulation"] else
          ["panel fault"]
      claimRandomPanels aid newStatus newIssues healthReduction numToAffect
        picks s
    else if ty = inverterOverload then
      -- `Inverter-${anomaly.location.match(/\d+/)[0]}`
      let inverterId := "Inverter-" ++ toString (locRand + 1)
      if (lookupEq s inverterId).isSome then
        ([inverterId],
         updateEq s inverterId (fun e =>
           { e with status := faulty, anomaly := some aid,
                    health := max 30 (e.health - 40) }))
      else ([inverterId], s)
    else ([], s)
  let location :=
    if ty = panelFault ∨ ty = dustAccumulation then
      "Section " ++ toString (startRow + 1) ++ "-" ++ toString (startCol + 1)
    else data.2.1
  let anomaly : Anomaly :=
    { id := aid, type := ty, name := data.1, location := location,
      impact := data.2.2.1, severity := data.2.2.2, timestamp := now,
      active := true, escalationLevel := 0, lastEscalation := now,
      affectedEquipment := claimed.1, resolvedAt := none,
      resolvedBy := none, causedBy := none }
  let s := { claimed.2 with anomalies := claimed.2.anomalies ++ [anomaly] }
  let s := addAlert s
    ("Anomaly generated: " ++ anomaly.name ++ " at " ++ anomaly.location)
    anomaly.severity
  let s := addLog s ("Anomaly generated: " ++ anomaly.name) "anomaly"
  updateSimulationQ now gen s

/-- `generateAnomalyForEquipment` (part_000 lines 929-994), the
health-triggered spawning path: claims exactly the given `equipmentId` and
assigns the id `state.anomalies.length + 1`.  Only the three equipment
anomaly types appear in its type table; the source throws for the two
environmental types (no caller passes them), modelled as the identity. -/
def generateAnomalyForEquipment (now : ℕ) (locRand : ℕ) (ty : AnomalyType)
    (equipmentId : String) (gen : ℚ) (s : SimState) : SimState :=
  if ty = dustStorm ∨ ty = cloudCover then s else
  let data := anomalyTypeData ty locRand
  let aid := s.anomalies.length + 1
  let anomaly : Anomaly :=
    { id := aid, type := ty, name := data.1, location := data.2.1,
      impact := data.2.2.1, severity := data.2.2.2, timestamp := now,
      active := true, escalationLevel := 0, lastEscalation := now,
      affectedEquipment := [equipmentId], resolvedAt := none,
      resolvedBy := none, causedBy := none }
  let s :=
    if ty = panelFault then
      updateEq s equipmentId (fun e =>
        { e with status := faulty, anomaly := some aid,
                 issues := ["Panel fault detected"],
                 health := max 20 (e.health - 30) })
    else if ty = dustAccumulation then
      updateEq s equipmentId (fun e =>
        { e with status := degraded, anomaly := some aid,
                 issues := ["Dust accumulation"],
                 health := max 20 (e.health - 25) })
    else
      updateEq s equipmentId (fun e =>
        { e with status := faulty, anomaly := some aid,
                 issues := ["Overload detected"],
                 health := max 30 (e.health - 40) })
  let s := { s with anomalies := s.anomalies ++ [anomaly] }
  updateSimulationQ now gen s

/-- One equipment entry of the `monitorEquipmentHealth` sweep (part_000
lines 997-1027): a healthy unit with health below 80 and no active
claiming anomaly triggers `generateAnomalyForEquipment` with the
type chosen from the unit's id prefix (`Panel` → 70% dust-accumulation /
30% panel-fault via the draw `tyRand`, `Inverter` → inverter-overload,
anything else keeps the `'panel-fault'` default). -/
def monitorStep (now : ℕ) (locRands : String → ℕ) (tyRands : String → ℚ)
    (gen : ℚ) (s : SimState) (equipmentId : String) : SimState :=
  match lookupEq s equipmentId with
  | none => s
  | some equipment =>
    if equipment.status = healthy ∧ equipment.health < 80 ∧
        hasActiveClaim s equipmentId = false then
      let kind := idKind equipmentId
      let anomalyType :=
        if kind = "Panel" then
          if tyRands equipmentId > 3/10 then dustAccumulation else panelFault
        else if kind = "Inverter" then inverterOverload
        else panelFault
      let s := generateAnomalyForEquipment now (locRands equipmentId)
        anomalyType equipmentId gen s
      let s := addAlert s ("Auto-generated anomaly for " ++ equipment.name)
        "warning"
      addLog s ("Auto-generated anomaly for " ++ equipmentId) "anomaly"
    else s

/-- `monitorEquipmentHealth` (part_000 lines 997-1027): the sweep over
`Object.entries(state.equipmentHealth)` (insertion order), each entry
re-reading the current state. -/
def monitorEquipmentHealth (now : ℕ) (locRands : String → ℕ)
    (tyRands : String → ℚ) (gen : ℚ) (s : SimState) : SimState :=
  (s.equipmentHealth.map Prod.fst).foldl (monitorStep now locRands tyRands gen) s

/-- The degradable-equipment filter of `degradeEquipmentHealth`
(part_000 lines 1032-1040): healthy, health above 80, no active claiming
anomaly. -/
def degradable (s : SimState) : List (String × Equipment) :=
  s.equipmentHealth.filter (fun p =>
    p.2.status = healthy ∧ p.2.health > 80 ∧ hasActiveClaim s p.1 = false)

/-- `degradeEquipmentHealth` (part_000 lines 1030-1060).  `shuffled` is
the random permutation the source produces with
`sort(() => Math.random() - 0.5)` (injected; theorems that need it assume
it permutes the degradable ids); the first
`Math.ceil(0.25 * degradable.length)` of it are degraded by
`0.1 + Math.random() * 0.4` (draw `drand`), floored at 75. -/
def degradeEquipmentHealth (shuffled : List String) (drand : String → ℚ)
    (s : SimState) : SimState :=
  let equipmentToDegrade : ℕ := ⌈((degradable s).length : ℚ) * (1/4)⌉.toNat
  let selected := shuffled.take equipmentToDegrade
  selected.foldl
    (fun st equipmentId =>
      updateEq st equipmentId (fun e =>
        { e with health := max 75 (e.health - (1/10 + drand equipmentId * (4/10))) }))
    s

/-- `generateDustAccumulationAfterStorm` (part_000 lines 2181-2236): the
cascade spawned when a dust storm resolves.  `numToAffect` is the
`Math.floor(Math.random()*5) + 4` draw (4-8), `picks` the random
panel-index draws; the anomaly id and timestamps are `Date.now()`,
i.e. `now`. -/
def generateDustAccumulationAfterStorm (now : ℕ) (numToAffect : ℕ)
    (picks : List ℕ) (gen : ℚ) (s : SimState) : SimState :=
  let aid := now
  let claimed := claimRandomPanels aid degraded ["dust accumulation"] 25
    numToAffect picks s
  let anomaly : Anomaly :=
    { id := aid, type := dustAccumulation, name := "Dust Accumulation",
      location := "Multiple Sections", impact := "10%",
      severity := "warning", timestamp := now, active := true,
      escalationLevel := 0, lastEscalation := now,
      affectedEquipment := claimed.1, resolvedAt := none,
      resolvedBy := none, causedBy := some "dust-storm" }
  let s := { claimed.2 with anomalies := claimed.2.anomalies ++ [anomaly] }
  let s := addAlert s "Dust accumulation detected after dust storm" "warning"
  let s := addLog s "Dust accumulation anomaly generated after dust storm"
    "anomaly"
  updateSimulationQ now gen s

/-- The random draws one `checkAnomalies` entry may consume: the
`96 + Math.random() * 4` health roll for each released equipment id, and
the cascade's panel-count and panel-index draws. -/
structure AnomalyRands where
  release : String → ℚ
  cascadeNum : ℕ
  cascadePicks : List ℕ

/-- The release loop of the auto-timeout branch (part_000 lines 746-755)
and of `correctAnomaly` (lines 855-864): every affected equipment id that
exists becomes healthy, unclaimed, issue-free, with a fresh
`96 + Math.random() * 4` health roll. -/
def releaseEquipment (release : String → ℚ) (ids : List String)
    (s : SimState) : SimState :=
  ids.foldl
    (fun st equipmentId =>
      updateEq st equipmentId (fun e =>
        { e with status := healthy, anomaly := none, issues := [],
                 health := 96 + 4 * release equipmentId }))
    s

/-- One anomaly of the `checkAnomalies` sweep (part_000 lines 722-824),
acting on the anomaly at position `i`.  The 200-second auto-timeout check
(lines 729-770, ending in `return`) is evaluated before the 60-second
escalation check (lines 773-797). -/
def processAnomaly (now : ℕ) (r : AnomalyRands) (gen : ℚ) (s : SimState)
    (i : ℕ) : SimState :=
  match s.anomalies.get? i with
  | none => s
  | some anomaly =>
    if anomaly.active = true then
      let timeSinceStart : ℚ := ((now : ℚ) - (anomaly.timestamp : ℚ)) / 1000
      let timeSinceLastEscalation : ℚ :=
        ((now : ℚ) - (anomaly.lastEscalation : ℚ)) / 1000
      if 200 ≤ timeSinceStart then
        let resolved :=
          { anomaly with active := false, resolvedAt := some now,
                         resolvedBy := some ResolvedBy.autoTimeout }
        let s := { s with anomalies := s.anomalies.set i resolved }
        let s :=
          if anomaly.type = dustStorm ∨ anomaly.type = cloudCover then
            addLog
              (addAlert s ("Environmental condition cleared: " ++ anomaly.name)
                "info")
              ("Environmental anomaly cleared after 200 seconds: " ++
                anomaly.name) "resolution"
          else
            addLog
              (addAlert s ("Anomaly auto-corrected after timeout: " ++
                anomaly.name) "info")
              ("Anomaly auto-corrected after 200 seconds: " ++ anomaly.name)
              "resolution"
        if anomaly.type = panelFault ∨ anomaly.type = dustAccumulation ∨
            anomaly.type = inverterOverload then
          releaseEquipment r.release anomaly.affectedEquipment s
        else if anomaly.type = dustStorm then
          let s := updateSimulationQ now gen { s with overrideDust := none }
          generateDustAccumulationAfterStorm now r.cascadeNum r.cascadePicks
            gen s
        else
          updateSimulationQ now gen { s with overrideCloud := none }
      else if 60 ≤ timeSinceLastEscalation ∧ anomaly.escalationLevel < 3 then
        let maxEscalation : ℕ :=
          if anomaly.type = dustStorm ∨ anomaly.type = cloudCover then 1
          else 3
        if anomaly.escalationLevel < maxEscalation then
          let escalated := { anomaly with
            escalationLevel := anomaly.escalationLevel + 1,
            lastEscalation := now }
          let s := { s with anomalies := s.anomalies.set i escalated }
          let s := addAlert s ("Escalation: " ++ anomaly.name) "warning"
          addLog s ("Anomaly escalated: " ++ anomaly.name) "escalation"
        else s
      else s
    else s

/-- `checkAnomalies` (part_000 lines 719-839): the `forEach` sweep over the
anomalies present when the sweep starts (anomalies appended mid-sweep by
the cascade are not visited, as `Array.prototype.forEach` does not visit
elements appended during iteration), followed by the closing
`updateSimulation()` of line 826.  `rands i` are the draws consumed while
processing position `i`. -/
def checkAnomalies (now : ℕ) (rands : ℕ → AnomalyRands) (gen : ℚ)
    (s : SimState) : SimState :=
  let swept := (List.range s.anomalies.length).foldl
    (fun st i => processAnomaly now (rands i) gen st i) s
  updateSimulationQ now gen swept

/-- `correctAnomaly` (part_000 lines 842-887), the manual resolution path:
looks up the anomaly by id; if absent or already inactive, nothing at all
happens. -/
def correctAnomaly (now : ℕ) (r : AnomalyRands) (gen : ℚ) (anomalyId : ℕ)
    (s : SimState) : SimState :=
  match s.anomalies.findIdx? (fun a => a.id = anomalyId) with
  | none => s
  | some i =>
    match s.anomalies.get? i with
    | none => s
    | some anomaly =>
      if anomaly.active = true then
        let resolved :=
          { anomaly with active := false, resolvedAt := some now,
                         resolvedBy := some ResolvedBy.user }
        let s := { s with anomalies := s.anomalies.set i resolved }
        let s := addAlert s ("Anomaly corrected: " ++ anomaly.name) "info"
        let s := addLog s ("Anomaly manually corrected: " ++ anomaly.name)
          "resolution"
        let s :=
          if anomaly.type = panelFault ∨ anomaly.type = dustAccumulation ∨
              anomaly.type = inverterOverload then
            releaseEquipment r.release anomaly.affectedEquipment s
          else if anomaly.type = dustStorm then
            let s := updateSimulationQ now gen { s with overrideDust := none }
            generateDustAccumulationAfterStorm now r.cascadeNum r.cascadePicks
              gen s
          else
            updateSimulationQ now gen { s with overrideCloud := none }
        updateSimulationQ now gen s
      else s

/-- `initializeEquipment` (part_000 lines 59-78): the fixed registry of
20 panels, 5 inverters, 3 batteries, 2 transformers, in insertion order;
each unit starts healthy with a fresh `95 + Math.random() * 5` roll
(draw `r id`), name `prefix i`, no issues, and the `anomaly` claim field
unset (`null`-equivalent). -/
def initEquipment (r : String → ℚ) : List (String × Equipment) :=
  ([("Panel", 20), ("Inverter", 5), ("Battery", 3),
    ("Transformer", 2)] : List (String × ℕ)).flatMap
    (fun t => (List.range t.2).map (fun i =>
      let id := t.1 ++ "-" ++ toString (i + 1)
      (id, { name := t.1 ++ " " ++ toString (i + 1),
             health := 95 + 5 * r id, status := healthy, issues := [],
             anomaly := none })))

/-- The initial `state` (part_000 lines 4-42) after `initializeEquipment`
has populated the registry, with the clock at `t0`. -/
def initState (t0 : ℕ) (r : String → ℚ) : SimState :=
  { capacity := 100, currentGeneration := 0, dailyCumulative := 0,
    lastUpdateTime := t0, envTemperature := 30, envDust := 5, envCloud := 7,
    envHumidity := 10, manualEnvironmentControl := true,
    overrideDust := none, overrideCloud := none, anomalies := [],
    equipmentHealth := initEquipment r, alerts := [], logs := [] }

/-- `initializeSystemState` (part_000 lines 235-293): the full reset run on
manual time-set and on reset-to-real-time.  `r` gives the fresh
`95 + Math.random() * 5` equipment health rolls. -/
def initializeSystemState (now : ℕ) (r : String → ℚ) (preserveLogs : Bool)
    (s : SimState) : SimState :=
  let s :=
    { s with currentGeneration := 0, dailyCumulative := 0,
             lastUpdateTime := now, anomalies := [],
             equipmentHealth := s.equipmentHealth.map
               (fun (p : String × Equipment) =>
                 (p.1, { p.2 with health := 95 + 5 * r p.1, status := healthy,
                                  anomaly := none, issues := [] })) }
  let s :=
    if s.manualEnvironmentControl = true then
      { s with envTemperature := 30, envDust := 5, envCloud := 7,
               envHumidity := 10 }
    else s
  let s := { s with overrideDust := none, overrideCloud := none }
  let s := if preserveLogs = true then s else { s with logs := [] }
  addLog s "System initialized" "system"

/-! ## The step relation

One constructor per state-mutating operation of the simulation core, with
the ranges of the injected random draws as side conditions (each models a
`Math.random()` result in `[0,1)`, a `Math.floor(Math.random()*k)` result
in `[0,k)`, or the random permutation produced by the `sort` shuffle). -/

/-- A random draw in `[0,1)` (the range of `Math.random()`). -/
def UnitRand (q : ℚ) : Prop :=
  0 ≤ q ∧ q < 1

/-- One tick or user action of the simulation core. -/
inductive Step : SimState → SimState → Prop
  | updateSim (s : SimState) (now : ℕ) (gen : ℚ) :
      Step s (updateSimulationQ now gen s)
  | advance (s : SimState) (cur : ℕ) (gen : ℚ) :
      Step s (advanceTimeQ cur gen s)
  | generate (s : SimState) (now : ℕ) (ty : AnomalyType)
      (locRand startRow startCol numToAffect : ℕ) (picks : List ℕ) (gen : ℚ) :
      Step s (generateAnomaly now ty locRand startRow startCol numToAffect
        picks gen s)
  | generateForEquipment (s : SimState) (now locRand : ℕ) (ty : AnomalyType)
      (equipmentId : String) (gen : ℚ) :
      Step s (generateAnomalyForEquipment now locRand ty equipmentId gen s)
  | monitor (s : SimState) (now : ℕ) (locRands : String → ℕ)
      (tyRands : String → ℚ) (gen : ℚ) :
      Step s (monitorEquipmentHealth now locRands tyRands gen s)
  | degrade (s : SimState) (shuffled : List String) (drand : String → ℚ)
      (hperm : shuffled.Perm ((degradable s).map Prod.fst))
      (hdrand : ∀ id, UnitRand (drand id)) :
      Step s (degradeEquipmentHealth shuffled drand s)
  | check (s : SimState) (now : ℕ) (rands : ℕ → AnomalyRands) (gen : ℚ)
      (hrelease : ∀ i id, UnitRand ((rands i).release id)) :
      Step s (checkAnomalies now rands gen s)
  | correct (s : SimState) (now : ℕ) (r : AnomalyRands) (gen : ℚ)
      (anomalyId : ℕ) (hrelease : ∀ id, UnitRand (r.release id)) :
      Step s (correctAnomaly now r gen anomalyId s)
  | reinitialize (s : SimState) (now : ℕ) (r : String → ℚ)
      (preserveLogs : Bool) (hr : ∀ id, UnitRand (r id)) :
      Step s (initializeSystemState now r preserveLogs s)

/-- A state the simulation can be in: reached from some initial state by
the operations above. -/
def Reachable (s : SimState) : Prop :=
  ∃ t0 r, (∀ id, UnitRand (r id)) ∧
    Relation.ReflTransGen Step (initState t0 r) s

/-- The per-type escalation cap of part_000 line 775: 1 for the two
environmental types, 3 otherwise. -/
def maxEscalation : AnomalyType → ℕ
  | dustStorm => 1
  | cloudCover => 1
  | _ => 3

/-- The escalation-relevant footprint of an anomaly. -/
def escPair (a : Anomaly) : ℕ × AnomalyType :=
  (a.escalationLevel, a.type)

/-- Claim C4's invariant: every anomaly's escalation level is within its
per-type cap. -/
def EscInv (s : SimState) : Prop :=
  ∀ a ∈ s.anomalies, a.escalationLevel ≤ maxEscalation a.type

/-- Claim C10's invariant: every equipment health lies in [20, 100]. -/
def HealthInv (s : SimState) : Prop :=
  ∀ p ∈ s.equipmentHealth, 20 ≤ p.2.health ∧ p.2.health ≤ 100

/-- Claim C2's invariant: no equipment id is listed by two distinct
simultaneously active anomalies. -/
def AtMostOneClaim (s : SimState) : Prop :=
  s.anomalies.Pairwise (fun a b =>
    a.active = true → b.active = true →
      ∀ id ∈ a.affectedEquipment, id ∉ b.affectedEquipment)

instance (s : SimState) : Decidable (EscInv s) :=
  inferInstanceAs
    (Decidable (∀ a ∈ s.anomalies, a.escalationLevel ≤ maxEscalation a.type))

instance (s : SimState) : Decidable (HealthInv s) :=
  inferInstanceAs
    (Decidable (∀ p ∈ s.equipmentHealth, 20 ≤ p.2.health ∧ p.2.health ≤ 100))

instance : DecidableRel (fun (a b : Anomaly) =>
    a.active = true → b.active = true →
      ∀ id ∈ a.affectedEquipment, id ∉ b.affectedEquipment) :=
  fun _ _ => by exact inferInstance

instance (s : SimState) : Decidable (AtMostOneClaim s) :=
  List.instDecidablePairwise s.anomalies

/-! ## Conversation history (`ai-assistant.js`) -/

/-- One entry of `conversationHistory` (role, content). -/
structure ChatMessage where
  role : String
  content : String
deriving DecidableEq, Repr

/-- One entry of the repair loop of
`AIAssistant.validateConversationHistory` (ai-assistant.js lines 357-370):
accept a message with the expected role and flip the expectation; insert
an `'I understand.'` assistant placeholder before a user message that
arrives when an assistant reply was expected; drop an orphaned assistant
message (or any message whose role matches neither branch). -/
def validateStep (acc : List ChatMessage × String) (msg : ChatMessage) :
    List ChatMessage × String :=
  if msg.role = acc.2 then
    (acc.1 ++ [msg], if acc.2 = "user" then "assistant" else "user")
  else if msg.role = "user" ∧ acc.2 = "assistant" then
    (acc.1 ++ [⟨"assistant", "I understand."⟩, msg], "assistant")
  else acc

/-- `AIAssistant.validateConversationHistory` (ai-assistant.js lines
351-378): rebuilds the history in strict user/assistant alternation via
`validateStep`, then closes an open user turn with an
`'I understand. Please continue.'` assistant placeholder. -/
def validateConversationHistory (history : List ChatMessage) :
    List ChatMessage :=
  if history.length = 0 then history
  else
    let result := history.foldl validateStep ([], "user")
    let fixed := result.1
    match fixed.getLast? with
    | none => fixed
    | some m =>
      if m.role = "user" then
        fixed ++ [⟨"assistant", "I understand. Please continue."⟩]
      else fixed

/-- The conversation-history effect of a successful
`AIAssistant.sendMessage` (ai-assistant.js lines 31-103): the history is
validated (line 43), the user prompt and assistant reply are appended
(lines 90-91), and the result is truncated to its last 25 entries when
longer (lines 94-96). -/
def sendMessageHistory (history : List ChatMessage)
    (prompt assistantMessage : String) : List ChatMessage :=
  let validated := validateConversationHistory history
  let updated := validated ++
    [⟨"user", prompt⟩, ⟨"assistant", assistantMessage⟩]
  if 25 < updated.length then updated.drop (updated.length - 25) else updated

/-- The role a strictly alternating history carries at position `i`. -/
def roleAt (i : ℕ) : String :=
  if i % 2 = 0 then "user" else "assistant"

/-- Strict alternation starting from a user turn: the message at every
even position is a user message and at every odd position an assistant
message. -/
def Alternating (l : List ChatMessage) : Prop :=
  ∀ i (h : i < l.length),
    (l.get ⟨i, h⟩).role = if i % 2 = 0 then "user" else "assistant"

instance (l : List ChatMessage) : Decidable (Alternating l) :=
  Nat.decidableBallLT l.length _

/-! ## Concrete runs

Small concrete executions used below to witness theorems and to exhibit
counterexamples.  `exRand` is the degenerate random source that always
draws 0. -/

/-- A fixed random source: every `Math.random()` draw is 0. -/
def exRand : String → ℚ := fun _ => 0

/-- The freshly initialised plant with all health rolls 0 and the clock at
0. -/
def exInit : SimState := initState 0 exRand

/-- A health-triggered dust-accumulation anomaly on `Panel-1` (claims it,
id 1). -/
def exC2a : SimState :=
  generateAnomalyForEquipment 1000 0 dustAccumulation "Panel-1" 0 exInit

/-- A manual panel fault generated afterwards whose two random panel draws
both hit index 0, i.e. the already-claimed `Panel-1`. -/
def exC2b : SimState :=
  generateAnomaly 2000 panelFault 0 0 0 2 [0, 0] 0 exC2a

/-- A manual panel fault at `Date.now() = 1000` (so anomaly id 1000). -/
def exC9a : SimState :=
  generateAnomaly 1000 panelFault 0 0 0 2 [0, 0] 0 exInit

/-- A health-triggered anomaly generated after it: its id is
`state.anomalies.length + 1 = 2`. -/
def exC9b : SimState :=
  generateAnomalyForEquipment 2000 0 dustAccumulation "Panel-2" 0 exC9a

/-- A manual dust storm at `Date.now() = 1000`. -/
def exC5a : SimState :=
  generateAnomaly 1000 dustStorm 0 0 0 0 [] 0 exInit

/-- Manual correction of the dust storm whose cascade draws
`numToAffect = 4` and four panel-index draws that all hit index 0. -/
def exC5b : SimState :=
  correctAnomaly 2000 ⟨fun _ => 0, 4, [0, 0, 0, 0]⟩ 0 1000 exC5a

/-- A health-triggered panel fault on `Panel-1` at time 0 (used to witness
the auto-timeout sweep). -/
def exC3 : SimState :=
  generateAnomalyForEquipment 0 0 panelFault "Panel-1" 0 exInit

/-- The anomaly record `exC3` holds at position 0. -/
def exC3anomaly : Anomaly :=
  { id := 1, type := panelFault, name := "Panel Fault",
    location := "Section 1", impact := "15%", severity := "critical",
    timestamp := 0, active := true, escalationLevel := 0,
    lastEscalation := 0, affectedEquipment := ["Panel-1"],
    resolvedAt := none, resolvedBy := none, causedBy := none }

/-- Degenerate draws for a `checkAnomalies` sweep: release rolls 0,
cascade count 4, cascade picks `[0, 1, 2, 3]`. -/
def exRands : ℕ → AnomalyRands := fun _ => ⟨fun _ => 0, 4, [0, 1, 2, 3]⟩

/-- The dust-storm record `exC5a` holds at position 0. -/
def exC5storm : Anomaly :=
  { id := 1000, type := dustStorm, name := "Dust Storm",
    location := "Entire facility", impact := "30%", severity := "warning",
    timestamp := 1000, active := true, escalationLevel := 0,
    lastEscalation := 1000, affectedEquipment := [],
    resolvedAt := none, resolvedBy := none, causedBy := none }

/-! # Theorems

First a layer of bookkeeping lemmas about which state fields each
operation touches, then the claim theorems. -/

@[simp]
theorem addAlert_anomalies (s : SimState) (m sev : String) :
    (addAlert s m sev).anomalies = s.anomalies := rfl

@[simp]
theorem addLog_anomalies (s : SimState) (m c : String) :
    (addLog s m c).anomalies = s.anomalies := rfl

@[simp]
theorem updateEq_anomalies (s : SimState) (id : String)
    (f : Equipment → Equipment) : (updateEq s id f).anomalies = s.anomalies :=
  rfl

@[simp]
theorem addAlert_equipmentHealth (s : SimState) (m sev : String) :
    (addAlert s m sev).equipmentHealth = s.equipmentHealth := rfl

@[simp]
theorem addLog_equipmentHealth (s : SimState) (m c : String) :
    (addLog s m c).equipmentHealth = s.equipmentHealth := rfl

@[simp]
theorem updateEq_equipmentHealth (s : SimState) (id : String)
    (f : Equipment → Equipment) :
    (updateEq s id f).equipmentHealth = updateL s.equipmentHealth id f := rfl

@[simp]
theorem updateSimulationQ_anomalies (now : ℕ) (gen : ℚ) (s : SimState) :
    (updateSimulationQ now gen s).anomalies = s.anomalies := by
  unfold updateSimulationQ addAlert
  dsimp only
  split <;> rfl

@[simp]
theorem updateSimulationQ_equipmentHealth (now : ℕ) (gen : ℚ)
    (s : SimState) :
    (updateSimulationQ now gen s).equipmentHealth = s.equipmentHealth := by
  unfold updateSimulationQ addAlert
  dsimp only
  split <;> rfl

@[simp]
theorem updateSimulationQ_overrideDust (now : ℕ) (gen : ℚ) (s : SimState) :
    (updateSimulationQ now gen s).overrideDust = s.overrideDust := by
  unfold updateSimulationQ addAlert
  dsimp only
  split <;> rfl

@[simp]
theorem updateSimulationQ_overrideCloud (now : ℕ) (gen : ℚ) (s : SimState) :
    (updateSimulationQ now gen s).overrideCloud = s.overrideCloud := by
  unfold updateSimulationQ addAlert
  dsimp only
  split <;> rfl

theorem releaseEquipment_anomalies (r : String → ℚ) (ids : List String)
    (s : SimState) : (releaseEquipment r ids s).anomalies = s.anomalies := by
  induction ids generalizing s with
  | nil => rfl
  | cons id ids ih => simpa [releaseEquipment] using ih _

/-- `updateSimulation` writes the cumulative exactly as lines 403-409 say:
zero on a 23→0 hour crossing, otherwise the previous value plus
`generation × elapsed hours`. -/
theorem updateSimulationQ_dailyCumulative (now : ℕ) (gen : ℚ)
    (s : SimState) :
    (updateSimulationQ now gen s).dailyCumulative =
      if hoursOf s.lastUpdateTime = 23 ∧ hoursOf now = 0 then 0
      else s.dailyCumulative +
        gen * (((now : ℚ) - (s.lastUpdateTime : ℚ)) / 3600000) := by
  unfold updateSimulationQ addAlert
  dsimp only
  split <;> simp_all

/-- Adding one hour to the clock lands in hour 0 exactly when the clock was
in hour 23. -/
theorem hoursOf_add_hour_eq_zero (t : ℕ) :
    hoursOf (t + 3600000) = 0 ↔ hoursOf t = 23 := by
  unfold hoursOf
  omega

@[simp]
theorem addAlert_dailyCumulative (s : SimState) (m sev : String) :
    (addAlert s m sev).dailyCumulative = s.dailyCumulative := rfl

@[simp]
theorem addLog_dailyCumulative (s : SimState) (m c : String) :
    (addLog s m c).dailyCumulative = s.dailyCumulative := rfl

@[simp]
theorem addAlert_lastUpdateTime (s : SimState) (m sev : String) :
    (addAlert s m sev).lastUpdateTime = s.lastUpdateTime := rfl

@[simp]
theorem addLog_lastUpdateTime (s : SimState) (m c : String) :
    (addLog s m c).lastUpdateTime = s.lastUpdateTime := rfl

/-- `advanceTime` zeroes the cumulative exactly when the hour it leaves is
23 (so the hour it enters is 0); otherwise the chained `updateSimulation`
accumulates over the full elapsed interval.  The hypothesis ties the
last-update hour to the current hour, which every call site guarantees
(`updateSimulation` runs every second and stamps `lastUpdateTime`). -/
theorem advanceTimeQ_dailyCumulative (cur : ℕ) (gen : ℚ) (s : SimState)
    (h : hoursOf s.lastUpdateTime = hoursOf cur) :
    (advanceTimeQ cur gen s).dailyCumulative =
      if hoursOf cur = 23 then 0
      else s.dailyCumulative +
        gen * ((((cur + 3600000 : ℕ) : ℚ) - (s.lastUpdateTime : ℚ)) / 3600000) := by
  by_cases hc : hoursOf cur = 23
  · have hz := (hoursOf_add_hour_eq_zero cur).mpr hc
    simp only [advanceTimeQ, updateSimulationQ_dailyCumulative, hz,
      addAlert_dailyCumulative, addLog_dailyCumulative,
      addAlert_lastUpdateTime, addLog_lastUpdateTime, if_true]
    simp [h, hc]
  · have hz : ¬ hoursOf (cur + 3600000) = 0 :=
      fun hcon => hc ((hoursOf_add_hour_eq_zero cur).mp hcon)
    have hz2 : (hoursOf (cur + 3600000) = 0) = False := eq_false hz
    simp only [advanceTimeQ, updateSimulationQ_dailyCumulative, hz2,
      addAlert_dailyCumulative, addLog_dailyCumulative,
      addAlert_lastUpdateTime, addLog_lastUpdateTime, if_false,
      and_false]
    simp [hc]

/-- C6: `dailyCumulative` is zeroed exactly on an update whose last-update
hour is 23 and whose current hour is 0 (and, for `advanceTime`, exactly
when the hour being left is 23); every other update adds
`currentGeneration × elapsed hours` instead. -/
theorem c6_dailyCumulative_reset :
    (∀ (s : SimState) (now : ℕ) (gen : ℚ),
      (updateSimulationQ now gen s).dailyCumulative =
        if hoursOf s.lastUpdateTime = 23 ∧ hoursOf now = 0 then 0
        else s.dailyCumulative +
          gen * (((now : ℚ) - (s.lastUpdateTime : ℚ)) / 3600000)) ∧
    (∀ (s : SimState) (cur : ℕ) (gen : ℚ),
      hoursOf s.lastUpdateTime = hoursOf cur →
      (advanceTimeQ cur gen s).dailyCumulative =
        if hoursOf cur = 23 then 0
        else s.dailyCumulative +
          gen * ((((cur + 3600000 : ℕ) : ℚ) - (s.lastUpdateTime : ℚ)) /
            3600000)) :=
  ⟨fun s now gen => updateSimulationQ_dailyCumulative now gen s,
   fun s cur gen h => advanceTimeQ_dailyCumulative cur gen s h⟩

/-- Witness for C6: a non-crossing tick from 00:00 to 23:00 accumulates
`7 MW × 23 h = 161`, and advancing one hour out of hour 23 resets the
cumulative to 0. -/
theorem c6_witness :
    (updateSimulationQ 82800000 7 exInit).dailyCumulative = 161 ∧
    (advanceTimeQ 82800000 7 (initState 82800000 exRand)).dailyCumulative
      = 0 := by
  constructor
  · rw [c6_dailyCumulative_reset.1 exInit 82800000 7]
    norm_num [exInit, initState, hoursOf]
  · rw [c6_dailyCumulative_reset.2 (initState 82800000 exRand) 82800000 7
      rfl]
    norm_num [hoursOf]

/-- C7: `correctAnomaly` with an id that matches no anomaly, or only
anomalies that are already inactive, leaves the whole state unchanged. -/
theorem c7_correctAnomaly_miss_noop (now : ℕ) (r : AnomalyRands) (gen : ℚ)
    (anomalyId : ℕ) (s : SimState)
    (h : ∀ a ∈ s.anomalies, a.id = anomalyId → a.active = false) :
    correctAnomaly now r gen anomalyId s = s := by
  unfold correctAnomaly
  cases hf : s.anomalies.findIdx? (fun a => a.id = anomalyId) with
  | none => rfl
  | some i =>
    dsimp only
    cases hg : s.anomalies.get? i with
    | none => rfl
    | some a =>
      dsimp only
      have hmem : a ∈ s.anomalies := List.get?_mem hg
      obtain ⟨hi, hp, -⟩ := List.findIdx?_eq_some_iff_getElem.mp hf
      have hga : s.anomalies[i] = a := by
        obtain ⟨h2, h3⟩ := List.get?_eq_some.mp hg
        simpa using h3
      have hid : a.id = anomalyId := by
        rw [hga] at hp
        exact of_decide_eq_true hp
      have hact : a.active = false := h a hmem hid
      simp [hact]

/-- Witness for C7: correcting the unknown id 5 in the fresh initial state
does nothing. -/
theorem c7_witness :
    correctAnomaly 0 ⟨fun _ => 0, 4, []⟩ 0 5 exInit = exInit :=
  c7_correctAnomaly_miss_noop 0 ⟨fun _ => 0, 4, []⟩ 0 5 exInit (by decide)

/-- Fold invariant principle used throughout: a property preserved by every
step of a `foldl` holds of its result. -/
theorem foldl_invariant {α β : Type _} (g : β → α → β) (P : β → Prop)
    (hg : ∀ acc x, P acc → P (g acc x)) :
    ∀ (l : List α) (b : β), P b → P (l.foldl g b) := by
  intro l
  induction l with
  | nil => exact fun b hb => hb
  | cons x xs ih => exact fun b hb => ih _ (hg _ _ hb)

theorem claimPanelStep_anomalies (aid : ℕ) (st : EquipmentStatus)
    (iss : List String) (hr : ℚ) (panelIds : List String) (picks : List ℕ)
    (acc : List String × SimState) (i : ℕ) :
    (claimPanelStep aid st iss hr panelIds picks acc i).2.anomalies =
      acc.2.anomalies := by
  unfold claimPanelStep
  cases panelIds.get? (picks.getD i 0) with
  | none => rfl
  | some eid =>
    dsimp only
    split <;> rfl

theorem claimRandomPanels_anomalies (aid : ℕ) (st : EquipmentStatus)
    (iss : List String) (hr : ℚ) (n : ℕ) (picks : List ℕ) (s : SimState) :
    (claimRandomPanels aid st iss hr n picks s).2.anomalies =
      s.anomalies := by
  unfold claimRandomPanels
  exact foldl_invariant
    (claimPanelStep aid st iss hr (panelIdsOf s) picks)
    (fun acc => acc.2.anomalies = s.anomalies)
    (fun acc x h => by dsimp only; rw [claimPanelStep_anomalies]; exact h)
    _ _ rfl

theorem generateAnomaly_anomalies (now : ℕ) (ty : AnomalyType)
    (locRand startRow startCol numToAffect : ℕ) (picks : List ℕ) (gen : ℚ)
    (s : SimState) :
    (generateAnomaly now ty locRand startRow startCol numToAffect picks gen
        s).anomalies.map Anomaly.id = s.anomalies.map Anomaly.id ++ [now] := by
  cases ty
  case inverterOverload =>
    simp [generateAnomaly, anomalyTypeData]
    split <;> simp
  all_goals
    simp [generateAnomaly, claimRandomPanels_anomalies, anomalyTypeData]

theorem generateAnomalyForEquipment_anomalies (now locRand : ℕ)
    (ty : AnomalyType) (eid : String) (gen : ℚ) (s : SimState)
    (h1 : ty ≠ dustStorm) (h2 : ty ≠ cloudCover) :
    (generateAnomalyForEquipment now locRand ty eid gen
        s).anomalies.map Anomaly.id =
      s.anomalies.map Anomaly.id ++ [s.anomalies.length + 1] := by
  cases ty <;> first
    | exact absurd rfl h1
    | exact absurd rfl h2
    | simp [generateAnomalyForEquipment]

theorem generateDustAccumulationAfterStorm_anomalies (now numToAffect : ℕ)
    (picks : List ℕ) (gen : ℚ) (s : SimState) :
    (generateDustAccumulationAfterStorm now numToAffect picks gen
        s).anomalies.map Anomaly.id = s.anomalies.map Anomaly.id ++ [now] := by
  simp [generateDustAccumulationAfterStorm, claimRandomPanels_anomalies]

/-- C9 counterexample: a manual anomaly at `Date.now() = 1000` receives id
1000; the next health-triggered anomaly receives id
`anomalies.length + 1 = 2`, which is not greater than the already-present
id 1000 — id assignment is not monotonic. -/
theorem c9_counterexample :
    exC9a.anomalies.map Anomaly.id = [1000] ∧
    exC9b.anomalies.map Anomaly.id = [1000, 2] ∧ ¬ (1000 < 2) := by
  refine ⟨by decide, by decide, by decide⟩

/-- C9 (amended): every creation path appends exactly one anomaly; the
manual path and the storm cascade stamp it with `Date.now()` while the
health-triggered path stamps it with `anomalies.length + 1`, so ids are
neither globally unique nor monotonic across paths. -/
theorem c9_amended_id_assignment :
    (∀ (now : ℕ) (ty : AnomalyType)
      (locRand startRow startCol numToAffect : ℕ) (picks : List ℕ) (gen : ℚ)
      (s : SimState),
      (generateAnomaly now ty locRand startRow startCol numToAffect picks gen
          s).anomalies.map Anomaly.id =
        s.anomalies.map Anomaly.id ++ [now]) ∧
    (∀ (now locRand : ℕ) (ty : AnomalyType) (eid : String) (gen : ℚ)
      (s : SimState), ty ≠ dustStorm → ty ≠ cloudCover →
      (generateAnomalyForEquipment now locRand ty eid gen
          s).anomalies.map Anomaly.id =
        s.anomalies.map Anomaly.id ++ [s.anomalies.length + 1]) ∧
    (∀ (now numToAffect : ℕ) (picks : List ℕ) (gen : ℚ) (s : SimState),
      (generateDustAccumulationAfterStorm now numToAffect picks gen
          s).anomalies.map Anomaly.id =
        s.anomalies.map Anomaly.id ++ [now]) :=
  ⟨generateAnomaly_anomalies,
   fun now locRand ty eid gen s h1 h2 =>
     generateAnomalyForEquipment_anomalies now locRand ty eid gen s h1 h2,
   generateDustAccumulationAfterStorm_anomalies⟩

/-- Witness for the amended C9, on the concrete runs used above. -/
theorem c9_amended_witness :
    exC9a.anomalies.map Anomaly.id =
      exInit.anomalies.map Anomaly.id ++ [1000] ∧
    exC9b.anomalies.map Anomaly.id =
      exC9a.anomalies.map Anomaly.id ++ [exC9a.anomalies.length + 1] :=
  ⟨c9_amended_id_assignment.1 1000 panelFault 0 0 0 2 [0, 0] 0 exInit,
   c9_amended_id_assignment.2.1 2000 0 dustAccumulation "Panel-2" 0 exC9a
     (by decide) (by decide)⟩

/-! ### The panel-claiming loop -/

theorem lookupL_isSome_of_mem_fst {l : List (String × Equipment)}
    {id : String} (h : id ∈ l.map Prod.fst) : (lookupL l id).isSome := by
  unfold lookupL
  obtain ⟨p, hp, hfst⟩ := List.mem_map.mp h
  have hsome : (List.find? (fun p => p.1 = id) l).isSome := by
    rw [List.find?_isSome]
    exact ⟨p, hp, by simp [hfst]⟩
  cases hfind : List.find? (fun p => p.1 = id) l with
  | none => rw [hfind] at hsome; simp at hsome
  | some q => simp [hfind]

/-- What one claiming step does to the collected list: it is unchanged, or
extends by one fresh panel id drawn from `panelIds`. -/
theorem claimPanelStep_fst (aid : ℕ) (st : EquipmentStatus)
    (iss : List String) (hr : ℚ) (panelIds : List String) (picks : List ℕ)
    (acc : List String × SimState) (i : ℕ) :
    (claimPanelStep aid st iss hr panelIds picks acc i).1 = acc.1 ∨
    ∃ eid, eid ∈ panelIds ∧ eid ∉ acc.1 ∧
      (claimPanelStep aid st iss hr panelIds picks acc i).1 =
        acc.1 ++ [eid] := by
  unfold claimPanelStep
  cases hg : panelIds.get? (picks.getD i 0) with
  | none => exact Or.inl rfl
  | some eid =>
    dsimp only
    split
    · next hcond =>
      exact Or.inr ⟨eid, List.get?_mem hg, hcond.1, rfl⟩
    · exact Or.inl rfl

theorem claimFold_fst_spec (aid : ℕ) (st : EquipmentStatus)
    (iss : List String) (hr : ℚ) (panelIds : List String) (picks : List ℕ) :
    ∀ (l : List ℕ) (acc : List String × SimState), acc.1.Nodup →
      (∀ x ∈ acc.1, x ∈ panelIds) →
      let res := l.foldl (claimPanelStep aid st iss hr panelIds picks) acc
      res.1.Nodup ∧ (∀ x ∈ res.1, x ∈ panelIds) ∧
        acc.1.length ≤ res.1.length ∧
        res.1.length ≤ acc.1.length + l.length := by
  intro l
  induction l with
  | nil => exact fun acc h1 h2 => ⟨h1, h2, le_refl _, by simp⟩
  | cons x xs ih =>
    intro acc h1 h2
    rw [List.foldl_cons]
    rcases claimPanelStep_fst aid st iss hr panelIds picks acc x with
      heq | ⟨eid, hmem, hnew, heq⟩
    · have := ih (claimPanelStep aid st iss hr panelIds picks acc x)
        (heq ▸ h1) (heq ▸ h2)
      refine ⟨this.1, this.2.1, ?_, ?_⟩
      · exact le_trans (le_of_eq (congrArg List.length heq.symm)) this.2.2.1
      · calc _ ≤ _ := this.2.2.2
          _ ≤ _ := by rw [heq, List.length_cons]; omega
    · have hnodup : (acc.1 ++ [eid]).Nodup := by
        simp [List.nodup_append, h1, hnew]
      have hsub : ∀ y ∈ acc.1 ++ [eid], y ∈ panelIds := by
        intro y hy
        rcases List.mem_append.mp hy with hy | hy
        · exact h2 y hy
        · simpa using (List.mem_singleton.mp hy) ▸ hmem
      have := ih (claimPanelStep aid st iss hr panelIds picks acc x)
        (heq ▸ hnodup) (heq ▸ hsub)
      refine ⟨this.1, this.2.1, ?_, ?_⟩
      · refine le_trans ?_ this.2.2.1
        rw [heq]
        simp
      · calc _ ≤ _ := this.2.2.2
          _ ≤ _ := by
            rw [heq]
            simp only [List.length_append, List.length_cons,
              List.length_nil, List.length_singleton]
            omega

/-- The claimed-panel list of `claimRandomPanels`: no duplicates, only
panel ids, at most `numToAffect` entries. -/
theorem claimRandomPanels_fst_spec (aid : ℕ) (st : EquipmentStatus)
    (iss : List String) (hr : ℚ) (n : ℕ) (picks : List ℕ) (s : SimState) :
    (claimRandomPanels aid st iss hr n picks s).1.Nodup ∧
    (∀ x ∈ (claimRandomPanels aid st iss hr n picks s).1,
      x ∈ panelIdsOf s) ∧
    (claimRandomPanels aid st iss hr n picks s).1.length ≤ n := by
  have h := claimFold_fst_spec aid st iss hr (panelIdsOf s) picks
    (List.range (min n (panelIdsOf s).length)) ([], s) (by simp) (by simp)
  refine ⟨h.1, h.2.1, ?_⟩
  have := h.2.2.2
  simp only [List.length_nil, List.length_range, Nat.zero_add] at this
  exact le_trans this (le_trans (min_le_left _ _) (le_refl _))

/-- When at least one claiming iteration runs and the first random draw is
in range, at least one panel is claimed. -/
theorem claimRandomPanels_fst_nonempty (aid : ℕ) (st : EquipmentStatus)
    (iss : List String) (hr : ℚ) (n : ℕ) (picks : List ℕ) (s : SimState)
    (hn : 1 ≤ n) (hpick : picks.getD 0 0 < (panelIdsOf s).length) :
    1 ≤ (claimRandomPanels aid st iss hr n picks s).1.length := by
  unfold claimRandomPanels
  have hm : 1 ≤ min n (panelIdsOf s).length :=
    le_min hn (le_trans (Nat.succ_le_of_lt (Nat.lt_of_le_of_lt
      (Nat.zero_le _) hpick)) (le_refl _))
  obtain ⟨k, hk⟩ : ∃ k, min n (panelIdsOf s).length = k + 1 :=
    ⟨min n (panelIdsOf s).length - 1, by omega⟩
  dsimp only
  rw [hk, List.range_succ_eq_map, List.foldl_cons]
  have hget : (panelIdsOf s).get ⟨picks.getD 0 0, hpick⟩ ∈ panelIdsOf s :=
    List.get_mem _ _ hpick
  have hmapmem :
      (panelIdsOf s).get ⟨picks.getD 0 0, hpick⟩ ∈
        s.equipmentHealth.map Prod.fst :=
    List.mem_of_mem_filter hget
  have hstep1 : (claimPanelStep aid st iss hr (panelIdsOf s) picks
      ([], s) 0).1 = [(panelIdsOf s).get ⟨picks.getD 0 0, hpick⟩] := by
    unfold claimPanelStep
    rw [List.get?_eq_get hpick]
    dsimp only
    rw [if_pos ⟨by simp, lookupL_isSome_of_mem_fst hmapmem⟩]
    simp
  have hspec := claimFold_fst_spec aid st iss hr (panelIdsOf s) picks
    (List.map Nat.succ (List.range k))
    (claimPanelStep aid st iss hr (panelIdsOf s) picks ([], s) 0)
    (by rw [hstep1]; simp)
    (by
      rw [hstep1]
      intro x hx
      rw [List.mem_singleton] at hx
      exact hx ▸ hget)
  refine le_trans ?_ hspec.2.2.1
  rw [hstep1]
  simp

/-! ### The dust-storm cascade (claim C5) -/

theorem panelIdsOf_congr {s s' : SimState}
    (h : s.equipmentHealth = s'.equipmentHealth) :
    panelIdsOf s = panelIdsOf s' := by
  unfold panelIdsOf
  rw [h]

/-- The cascade record appended by `generateDustAccumulationAfterStorm`. -/
def cascadeAnomaly (now num : ℕ) (picks : List ℕ) (s : SimState) : Anomaly :=
  { id := now, type := dustAccumulation, name := "Dust Accumulation",
    location := "Multiple Sections", impact := "10%", severity := "warning",
    timestamp := now, active := true, escalationLevel := 0,
    lastEscalation := now,
    affectedEquipment :=
      (claimRandomPanels now degraded ["dust accumulation"] 25 num picks
        s).1,
    resolvedAt := none, resolvedBy := none, causedBy := some "dust-storm" }

theorem generateDustAccumulationAfterStorm_structure (now num : ℕ)
    (picks : List ℕ) (gen : ℚ) (s : SimState) :
    (generateDustAccumulationAfterStorm now num picks gen s).anomalies =
      s.anomalies ++ [cascadeAnomaly now num picks s] := by
  simp [generateDustAccumulationAfterStorm, claimRandomPanels_anomalies,
    cascadeAnomaly]

/-- The panel list of the cascade record: distinct panels of the plant,
at most `num` of them, and at least one when `num ≥ 1` and the first draw
is in range. -/
theorem cascadeAnomaly_affected_spec (now num : ℕ) (picks : List ℕ)
    (s : SimState) :
    (cascadeAnomaly now num picks s).affectedEquipment.Nodup ∧
    (∀ x ∈ (cascadeAnomaly now num picks s).affectedEquipment,
      x ∈ panelIdsOf s) ∧
    (cascadeAnomaly now num picks s).affectedEquipment.length ≤ num :=
  claimRandomPanels_fst_spec now degraded ["dust accumulation"] 25 num
    picks s

theorem cascadeAnomaly_affected_nonempty (now num : ℕ) (picks : List ℕ)
    (s : SimState) (hn : 1 ≤ num)
    (hpick : picks.getD 0 0 < (panelIdsOf s).length) :
    1 ≤ (cascadeAnomaly now num picks s).affectedEquipment.length :=
  claimRandomPanels_fst_nonempty now degraded ["dust accumulation"] 25 num
    picks s hn hpick

/-- The common tail of both dust-storm resolution paths: clearing the
override and spawning the cascade appends exactly one dust-accumulation
anomaly whose panel list obeys the bounds above.  `t` is the intermediate
state at the moment the cascade fires; `base` the state the caller started
from (same equipment registry, same anomaly count). -/
theorem resolveTail_spec (now num : ℕ) (picks : List ℕ) (gen : ℚ)
    (t base : SimState)
    (hEH : t.equipmentHealth = base.equipmentHealth)
    (hlen : t.anomalies.length = base.anomalies.length)
    (hn1 : 1 ≤ num) (hn8 : num ≤ 8)
    (hpick : picks.getD 0 0 < (panelIdsOf base).length) :
    (generateDustAccumulationAfterStorm now num
      picks gen t).anomalies.length = base.anomalies.length + 1 ∧
    ∀ b, (generateDustAccumulationAfterStorm now
        num picks gen t).anomalies.getLast? = some b →
      b.type = dustAccumulation ∧ b.active = true ∧
      b.causedBy = some "dust-storm" ∧ b.affectedEquipment.Nodup ∧
      1 ≤ b.affectedEquipment.length ∧ b.affectedEquipment.length ≤ 8 ∧
      ∀ x ∈ b.affectedEquipment, x ∈ panelIdsOf base := by
  have hp : panelIdsOf t = panelIdsOf base := panelIdsOf_congr hEH
  constructor
  · rw [generateDustAccumulationAfterStorm_structure]
    simp [hlen]
  · intro b hb
    rw [generateDustAccumulationAfterStorm_structure,
      List.getLast?_concat] at hb
    obtain rfl : b = cascadeAnomaly now num picks t :=
      (Option.some_inj.mp hb).symm
    obtain ⟨hnd, hmem, hle⟩ := cascadeAnomaly_affected_spec now num picks t
    refine ⟨rfl, rfl, rfl, hnd, ?_, le_trans hle hn8, ?_⟩
    · exact cascadeAnomaly_affected_nonempty now num picks t hn1
        (by rw [hp]; exact hpick)
    · intro x hx
      rw [← hp]
      exact hmem x hx

/-- Manual correction of an active dust storm appends exactly one
dust-accumulation anomaly with the cascade's panel-list bounds. -/
theorem correctAnomaly_dustStorm_spec (now : ℕ) (r : AnomalyRands)
    (gen : ℚ) (aid : ℕ) (s : SimState) (i : ℕ) (a : Anomaly)
    (hidx : s.anomalies.findIdx? (fun x => x.id = aid) = some i)
    (hget : s.anomalies.get? i = some a)
    (hact : a.active = true) (hty : a.type = dustStorm)
    (hn1 : 1 ≤ r.cascadeNum) (hn8 : r.cascadeNum ≤ 8)
    (hpick : r.cascadePicks.getD 0 0 < (panelIdsOf s).length) :
    (correctAnomaly now r gen aid s).anomalies.length =
      s.anomalies.length + 1 ∧
    ∀ b, (correctAnomaly now r gen aid s).anomalies.getLast? = some b →
      b.type = dustAccumulation ∧ b.active = true ∧
      b.causedBy = some "dust-storm" ∧ b.affectedEquipment.Nodup ∧
      1 ≤ b.affectedEquipment.length ∧ b.affectedEquipment.length ≤ 8 ∧
      ∀ x ∈ b.affectedEquipment, x ∈ panelIdsOf s := by
  unfold correctAnomaly
  rw [hidx]
  dsimp only
  cases hg2 : s.anomalies.get? i with
  | none => rw [hget] at hg2; cases hg2
  | some a2 =>
    rw [hget] at hg2
    obtain rfl : a = a2 := Option.some_inj.mp hg2
    dsimp only
    rw [if_pos hact]
    rw [if_neg (by rw [hty]; simp), if_pos hty]
    simp only [updateSimulationQ_anomalies]
    exact resolveTail_spec now r.cascadeNum r.cascadePicks gen _ s
      (by simp) (by simp) hn1 hn8 hpick

/-- The auto-timeout of an active dust storm (one `checkAnomalies` entry)
appends exactly one dust-accumulation anomaly with the cascade's
panel-list bounds. -/
theorem processAnomaly_dustStorm_spec (now : ℕ) (r : AnomalyRands)
    (gen : ℚ) (s : SimState) (i : ℕ) (a : Anomaly)
    (hget : s.anomalies.get? i = some a)
    (hact : a.active = true)
    (helapsed : (200 : ℚ) ≤ ((now : ℚ) - (a.timestamp : ℚ)) / 1000)
    (hty : a.type = dustStorm)
    (hn1 : 1 ≤ r.cascadeNum) (hn8 : r.cascadeNum ≤ 8)
    (hpick : r.cascadePicks.getD 0 0 < (panelIdsOf s).length) :
    (processAnomaly now r gen s i).anomalies.length =
      s.anomalies.length + 1 ∧
    ∀ b, (processAnomaly now r gen s i).anomalies.getLast? = some b →
      b.type = dustAccumulation ∧ b.active = true ∧
      b.causedBy = some "dust-storm" ∧ b.affectedEquipment.Nodup ∧
      1 ≤ b.affectedEquipment.length ∧ b.affectedEquipment.length ≤ 8 ∧
      ∀ x ∈ b.affectedEquipment, x ∈ panelIdsOf s := by
  unfold processAnomaly
  cases hg2 : s.anomalies.get? i with
  | none => rw [hget] at hg2; cases hg2
  | some a2 =>
    rw [hget] at hg2
    obtain rfl : a = a2 := Option.some_inj.mp hg2
    dsimp only
    rw [if_pos hact, if_pos helapsed, if_pos (Or.inl hty)]
    rw [if_neg (by rw [hty]; simp), if_pos hty]
    exact resolveTail_spec now r.cascadeNum r.cascadePicks gen _ s
      (by simp) (by simp) hn1 hn8 hpick

/-- C5 counterexample: a dust storm corrected with cascade draws
`numToAffect = 4` and panel picks `[0,0,0,0]` spawns a dust-accumulation
anomaly claiming only `Panel-1` — one panel, not between 4 and 8, because
duplicate random draws are skipped rather than retried. -/
theorem c5_counterexample :
    exC5a.anomalies.map (fun a => (a.id, a.type, a.active)) =
      [(1000, dustStorm, true)] ∧
    exC5b.anomalies.map (fun a => (a.type, a.active, a.affectedEquipment)) =
      [(dustStorm, false, []), (dustAccumulation, true, ["Panel-1"])] ∧
    ¬ 4 ≤ (["Panel-1"] : List String).length :=
  ⟨by decide, by decide, by decide⟩

/-- C5 (amended): resolving an active dust storm — manually or by the
200-second auto-timeout — appends exactly one new active dust-accumulation
anomaly whose `affectedEquipment` is a duplicate-free list of panels of
size between 1 and 8 (at most `numToAffect ∈ [4,8]`; duplicate draws can
push it below 4). -/
theorem c5_amended_cascade_spawn :
    (∀ (now : ℕ) (r : AnomalyRands) (gen : ℚ) (aid : ℕ) (s : SimState)
      (i : ℕ) (a : Anomaly),
      s.anomalies.findIdx? (fun x => x.id = aid) = some i →
      s.anomalies.get? i = some a → a.active = true → a.type = dustStorm →
      1 ≤ r.cascadeNum → r.cascadeNum ≤ 8 →
      r.cascadePicks.getD 0 0 < (panelIdsOf s).length →
      (correctAnomaly now r gen aid s).anomalies.length =
        s.anomalies.length + 1 ∧
      ∀ b, (correctAnomaly now r gen aid s).anomalies.getLast? = some b →
        b.type = dustAccumulation ∧ b.active = true ∧
        b.causedBy = some "dust-storm" ∧ b.affectedEquipment.Nodup ∧
        1 ≤ b.affectedEquipment.length ∧ b.affectedEquipment.length ≤ 8 ∧
        ∀ x ∈ b.affectedEquipment, x ∈ panelIdsOf s) ∧
    (∀ (now : ℕ) (r : AnomalyRands) (gen : ℚ) (s : SimState) (i : ℕ)
      (a : Anomaly),
      s.anomalies.get? i = some a → a.active = true →
      (200 : ℚ) ≤ ((now : ℚ) - (a.timestamp : ℚ)) / 1000 →
      a.type = dustStorm →
      1 ≤ r.cascadeNum → r.cascadeNum ≤ 8 →
      r.cascadePicks.getD 0 0 < (panelIdsOf s).length →
      (processAnomaly now r gen s i).anomalies.length =
        s.anomalies.length + 1 ∧
      ∀ b, (processAnomaly now r gen s i).anomalies.getLast? = some b →
        b.type = dustAccumulation ∧ b.active = true ∧
        b.causedBy = some "dust-storm" ∧ b.affectedEquipment.Nodup ∧
        1 ≤ b.affectedEquipment.length ∧ b.affectedEquipment.length ≤ 8 ∧
        ∀ x ∈ b.affectedEquipment, x ∈ panelIdsOf s) :=
  ⟨fun now r gen aid s i a h1 h2 h3 h4 h5 h6 h7 =>
    correctAnomaly_dustStorm_spec now r gen aid s i a h1 h2 h3 h4 h5 h6 h7,
   fun now r gen s i a h1 h2 h3 h4 h5 h6 h7 =>
    processAnomaly_dustStorm_spec now r gen s i a h1 h2 h3 h4 h5 h6 h7⟩

/-- Witness for the amended C5: the concrete correction run `exC5b` gains
exactly one anomaly over `exC5a`. -/
theorem c5_amended_witness :
    exC5b.anomalies.length = exC5a.anomalies.length + 1 :=
  (c5_amended_cascade_spawn.1 2000 ⟨fun _ => 0, 4, [0, 0, 0, 0]⟩ 0 1000
    exC5a 0 exC5storm (by decide) (by decide) (by decide) (by decide)
    (by decide) (by decide) (by decide)).1

/-! ### The at-most-one-claim invariant (claim C2) -/

theorem hasActiveClaim_eq_false_iff (s : SimState) (id : String) :
    hasActiveClaim s id = false ↔
      ∀ a ∈ s.anomalies, a.active = true → id ∉ a.affectedEquipment := by
  unfold hasActiveClaim
  rw [List.any_eq_false]
  constructor
  · intro h a ha hact hmem
    exact h a ha (by simp [hact, hmem])
  · intro h a ha hcon
    rw [Bool.and_eq_true] at hcon
    refine h a ha hcon.1 ?_
    simpa using hcon.2

theorem generateAnomalyForEquipment_structure (now locRand : ℕ)
    (ty : AnomalyType) (eid : String) (gen : ℚ) (s : SimState)
    (h1 : ty ≠ dustStorm) (h2 : ty ≠ cloudCover) :
    ∃ na : Anomaly,
      (generateAnomalyForEquipment now locRand ty eid gen s).anomalies =
        s.anomalies ++ [na] ∧ na.affectedEquipment = [eid] ∧
        na.escalationLevel = 0 := by
  cases ty with
  | dustStorm => exact absurd rfl h1
  | cloudCover => exact absurd rfl h2
  | panelFault =>
    refine ⟨⟨s.anomalies.length + 1, panelFault, "Panel Fault",
      "Section " ++ toString (locRand + 1), "15%", "critical", now,
      true, 0, now, [eid], none, none, none⟩, ?_, rfl, rfl⟩
    simp [generateAnomalyForEquipment, anomalyTypeData]
  | dustAccumulation =>
    refine ⟨⟨s.anomalies.length + 1, dustAccumulation, "Dust Accumulation",
      "Section " ++ toString (locRand + 1), "10%", "warning", now,
      true, 0, now, [eid], none, none, none⟩, ?_, rfl, rfl⟩
    simp [generateAnomalyForEquipment, anomalyTypeData]
  | inverterOverload =>
    refine ⟨⟨s.anomalies.length + 1, inverterOverload, "Inverter Overload",
      "Inverter " ++ toString (locRand + 1), "20%", "critical", now,
      true, 0, now, [eid], none, none, none⟩, ?_, rfl, rfl⟩
    simp [generateAnomalyForEquipment, anomalyTypeData]

theorem monitorStep_atMostOne (now : ℕ) (locRands : String → ℕ)
    (tyRands : String → ℚ) (gen : ℚ) (s : SimState) (eid : String)
    (h : AtMostOneClaim s) :
    AtMostOneClaim (monitorStep now locRands tyRands gen s eid) := by
  unfold monitorStep
  cases hl : lookupEq s eid with
  | none => exact h
  | some equipment =>
    dsimp only
    split
    · next hcond =>
      have hne : ∀ (k : String) (q : ℚ),
          (if k = "Panel" then
            (if q > 3/10 then dustAccumulation else panelFault)
          else if k = "Inverter" then inverterOverload else panelFault) ≠
            dustStorm ∧
          (if k = "Panel" then
            (if q > 3/10 then dustAccumulation else panelFault)
          else if k = "Inverter" then inverterOverload else panelFault) ≠
            cloudCover := by
        intro k q
        constructor <;> (split <;> (try split) <;> simp)
      obtain ⟨na, hna, haff, -⟩ :=
        generateAnomalyForEquipment_structure now (locRands eid) _ eid gen s
          (hne (idKind eid) (tyRands eid)).1
          (hne (idKind eid) (tyRands eid)).2
      unfold AtMostOneClaim at h ⊢
      simp only [addLog_anomalies, addAlert_anomalies, hna]
      rw [List.pairwise_append]
      refine ⟨h, by simp, ?_⟩
      intro b hb c hc
      rw [List.mem_singleton] at hc
      subst hc
      intro hbact _ x hxb
      rw [haff, List.mem_singleton]
      intro hxeid
      exact (hasActiveClaim_eq_false_iff s eid).mp hcond.2.2 b hb hbact
        (hxeid ▸ hxb)
    · exact h

/-- C2 counterexample: `Panel-1` is claimed by a health-triggered
dust-accumulation anomaly; a manual panel-fault generation whose random
panel draws hit the same panel then produces a second simultaneously
active anomaly listing `Panel-1` — the invariant fails after a manual
spawn. -/
theorem c2_counterexample :
    AtMostOneClaim exC2a ∧ ¬ AtMostOneClaim exC2b :=
  ⟨by decide, by decide⟩

/-- C2 (amended): the health-triggered spawning sweep
(`monitorEquipmentHealth`) preserves the at-most-one-active-claim
invariant, because it skips equipment already claimed by an active
anomaly; the manual `generateAnomaly` and the storm cascade perform no
such exclusion and can break the invariant. -/
theorem c2_amended_monitor_preserves (now : ℕ) (locRands : String → ℕ)
    (tyRands : String → ℚ) (gen : ℚ) (s : SimState)
    (h : AtMostOneClaim s) :
    AtMostOneClaim (monitorEquipmentHealth now locRands tyRands gen s) := by
  unfold monitorEquipmentHealth
  exact foldl_invariant (monitorStep now locRands tyRands gen)
    AtMostOneClaim
    (fun st eid hst => monitorStep_atMostOne now locRands tyRands gen st eid
      hst) _ _ h

/-- Witness for the amended C2 at the fresh initial state. -/
theorem c2_amended_witness :
    AtMostOneClaim (monitorEquipmentHealth 0 (fun _ => 0) (fun _ => 0) 0
      exInit) :=
  c2_amended_monitor_preserves 0 (fun _ => 0) (fun _ => 0) 0 exInit
    (by decide)

/-! ### Conversation-history repair (claim C8) -/

theorem validateStep_preserves (acc : List ChatMessage × String)
    (msg : ChatMessage)
    (h1 : acc.1.map ChatMessage.role = (List.range acc.1.length).map roleAt)
    (h2 : acc.2 = roleAt acc.1.length) :
    (validateStep acc msg).1.map ChatMessage.role =
      (List.range (validateStep acc msg).1.length).map roleAt ∧
    (validateStep acc msg).2 = roleAt (validateStep acc msg).1.length := by
  unfold validateStep
  by_cases hc1 : msg.role = acc.2
  · rw [if_pos hc1]
    dsimp only
    have hlen : (acc.1 ++ [msg]).length = acc.1.length + 1 := by simp
    constructor
    · rw [List.map_append, hlen, List.range_succ, List.map_append, h1]
      simp [hc1, h2]
    · rw [hlen, h2]
      by_cases hp : acc.1.length % 2 = 0
      · have hu : roleAt acc.1.length = "user" := by simp [roleAt, hp]
        rw [hu, if_pos rfl]
        have hp1 : (acc.1.length + 1) % 2 = 1 := by omega
        simp [roleAt, hp1]
      · have hu : roleAt acc.1.length = "assistant" := by simp [roleAt, hp]
        rw [hu, if_neg (by decide)]
        have hp1 : (acc.1.length + 1) % 2 = 0 := by omega
        simp [roleAt, hp1]
  · rw [if_neg hc1]
    by_cases hc2 : msg.role = "user" ∧ acc.2 = "assistant"
    · rw [if_pos hc2]
      dsimp only
      have hodd : acc.1.length % 2 = 1 := by
        by_cases hp : acc.1.length % 2 = 0
        · exfalso
          rw [h2] at hc2
          simp [roleAt, hp] at hc2
        · omega
      have hlen :
          (acc.1 ++ [⟨"assistant", "I understand."⟩, msg]).length =
            acc.1.length + 1 + 1 := by simp
      constructor
      · rw [List.map_append, hlen, List.range_succ, List.range_succ,
          List.map_append, List.map_append, h1, List.append_assoc]
        congr 1
        have hr1 : roleAt acc.1.length = "assistant" := by
          simp [roleAt, hodd]
        have hp1 : (acc.1.length + 1) % 2 = 0 := by omega
        have hr2 : roleAt (acc.1.length + 1) = "user" := by
          simp [roleAt, hp1]
        simp [hr1, hr2, hc2.1]
      · rw [hlen]
        have hp2 : (acc.1.length + 1 + 1) % 2 = 1 := by omega
        simp [roleAt, hp2]
    · rw [if_neg hc2]
      exact ⟨h1, h2⟩

theorem validate_fold_inv (history : List ChatMessage) :
    (history.foldl validateStep ([], "user")).1.map ChatMessage.role =
      (List.range
        (history.foldl validateStep ([], "user")).1.length).map roleAt ∧
    (history.foldl validateStep ([], "user")).2 =
      roleAt (history.foldl validateStep ([], "user")).1.length :=
  foldl_invariant validateStep
    (fun acc => acc.1.map ChatMessage.role =
      (List.range acc.1.length).map roleAt ∧
      acc.2 = roleAt acc.1.length)
    (fun acc msg h => validateStep_preserves acc msg h.1 h.2)
    history ([], "user") ⟨by simp, by simp [roleAt]⟩

/-- The role at the last position of a repaired prefix. -/
theorem getLast_role (l : List ChatMessage)
    (hmap : l.map ChatMessage.role = (List.range l.length).map roleAt)
    (m : ChatMessage) (hlast : l.getLast? = some m) :
    m.role = roleAt (l.length - 1) ∧ 1 ≤ l.length := by
  have hne : l ≠ [] := by
    intro h
    rw [h] at hlast
    cases hlast
  have hlen : 1 ≤ l.length := by
    cases l with
    | nil => exact absurd rfl hne
    | cons x xs => simp
  obtain ⟨k, hk⟩ : ∃ k, l.length = k + 1 := ⟨l.length - 1, by omega⟩
  have hmapLast := congrArg List.getLast? hmap
  rw [List.getLast?_map, List.getLast?_map, hlast, hk,
    List.range_succ] at hmapLast
  rw [List.getLast?_concat] at hmapLast
  simp at hmapLast
  refine ⟨?_, hlen⟩
  rw [hk]
  simpa using hmapLast

/-- The repaired history alternates (user at even positions, assistant at
odd positions) and has even length — i.e. it starts with a user message
and ends with an assistant message whenever it is nonempty. -/
theorem validateConversationHistory_spec (history : List ChatMessage) :
    (validateConversationHistory history).map ChatMessage.role =
      (List.range (validateConversationHistory history).length).map
        roleAt ∧
    (validateConversationHistory history).length % 2 = 0 := by
  unfold validateConversationHistory
  by_cases h0 : history.length = 0
  · rw [if_pos h0]
    obtain rfl := List.length_eq_zero.mp h0
    simp
  · rw [if_neg h0]
    dsimp only
    obtain ⟨hmap, hexp⟩ := validate_fold_inv history
    cases hlast : (history.foldl validateStep ([], "user")).1.getLast? with
    | none =>
      obtain hnil := List.getLast?_eq_none_iff.mp hlast
      rw [hnil]
      simp
    | some m =>
      dsimp only
      obtain ⟨hrole, hlen⟩ := getLast_role _ hmap m hlast
      by_cases hu : m.role = "user"
      · rw [if_pos hu]
        have hodd : (history.foldl validateStep ([], "user")).1.length % 2
            = 1 := by
          rw [hu] at hrole
          by_cases hp :
              ((history.foldl validateStep ([], "user")).1.length - 1) % 2
                = 0
          · omega
          · rw [roleAt, if_neg hp] at hrole
            exact absurd hrole (by decide)
        constructor
        · rw [List.map_append, List.length_append, List.length_singleton,
            List.range_succ, List.map_append, hmap]
          have : roleAt (history.foldl validateStep ([], "user")).1.length
              = "assistant" := by simp [roleAt, hodd]
          simp [this]
        · rw [List.length_append, List.length_singleton]
          omega
      · rw [if_neg hu]
        have hev : (history.foldl validateStep ([], "user")).1.length % 2
            = 0 := by
          by_cases hp :
              ((history.foldl validateStep ([], "user")).1.length - 1) % 2
                = 0
          · rw [roleAt, if_pos hp] at hrole
            exact absurd hrole hu
          · omega
        exact ⟨hmap, hev⟩

theorem alternating_of_map (l : List ChatMessage)
    (h : l.map ChatMessage.role = (List.range l.length).map roleAt) :
    Alternating l := by
  intro i hi
  have hgi := congrArg (fun x => x.get? i) h
  simp only [List.get?_map] at hgi
  rw [List.get?_eq_get hi] at hgi
  rw [List.get?_eq_get (by simpa using hi)] at hgi
  simp only [Option.map_some] at hgi
  have : (l.get ⟨i, hi⟩).role = roleAt ((List.range l.length).get
      ⟨i, by simpa using hi⟩) := Option.some_inj.mp hgi
  rw [this]
  have : (List.range l.length).get ⟨i, by simpa using hi⟩ = i := by
    simp [List.get_range]
  rw [this]
  rfl

theorem sendMessageHistory_length_le (history : List ChatMessage)
    (prompt reply : String) :
    (sendMessageHistory history prompt reply).length ≤ 25 := by
  unfold sendMessageHistory
  dsimp only
  split
  · rw [List.length_drop]
    omega
  · next hle =>
    rw [Nat.not_lt] at hle
    exact hle

/-! ### The auto-timeout sweep (claim C3) -/

theorem lookupL_updateL (l : List (String × Equipment)) (id x : String)
    (f : Equipment → Equipment) :
    lookupL (updateL l id f) x =
      if x = id then (lookupL l x).map f else lookupL l x := by
  induction l with
  | nil =>
    simp only [updateL, List.map_nil, lookupL, List.find?_nil,
      Option.map_none']
    split <;> rfl
  | cons p l ih =>
    by_cases hx : p.1 = x
    · subst hx
      have hfind : (updateL (p :: l) id f).find? (fun q => q.1 = p.1) =
          some (if p.1 = id then (p.1, f p.2) else p) := by
        unfold updateL
        rw [List.map_cons, List.find?_cons_of_pos]
        split <;> simp
      have hfind0 : (p :: l).find? (fun q => q.1 = p.1) = some p :=
        List.find?_cons_of_pos _ (by simp)
      unfold lookupL
      rw [hfind, hfind0]
      by_cases hid : p.1 = id <;> simp [hid]
    · have hfind : (updateL (p :: l) id f).find? (fun q => q.1 = x) =
          (updateL l id f).find? (fun q => q.1 = x) := by
        unfold updateL
        rw [List.map_cons, List.find?_cons_of_neg]
        split <;> simp [hx]
      have hfind0 : (p :: l).find? (fun q => q.1 = x) =
          l.find? (fun q => q.1 = x) :=
        List.find?_cons_of_neg _ (by simp [hx])
      unfold lookupL at ih ⊢
      rw [hfind, hfind0]
      exact ih

theorem lookupEq_updateEq (s : SimState) (id x : String)
    (f : Equipment → Equipment) :
    lookupEq (updateEq s id f) x =
      if x = id then (lookupEq s x).map f else lookupEq s x :=
  lookupL_updateL s.equipmentHealth id x f

theorem releaseEquipment_cons (rel : String → ℚ) (id : String)
    (ids : List String) (s : SimState) :
    releaseEquipment rel (id :: ids) s =
      releaseEquipment rel ids (updateEq s id (fun e =>
        { e with status := healthy, anomaly := none, issues := [],
                 health := 96 + 4 * rel id })) := rfl

theorem releaseEquipment_lookup_notmem (rel : String → ℚ) :
    ∀ (ids : List String) (s : SimState) (eid : String), eid ∉ ids →
      lookupEq (releaseEquipment rel ids s) eid = lookupEq s eid := by
  intro ids
  induction ids with
  | nil => intro s eid _; rfl
  | cons id ids ih =>
    intro s eid h
    rw [List.mem_cons] at h
    push_neg at h
    rw [releaseEquipment_cons, ih _ eid h.2, lookupEq_updateEq,
      if_neg h.1]

theorem releaseEquipment_lookup_mem (rel : String → ℚ) :
    ∀ (ids : List String) (s : SimState) (eid : String), eid ∈ ids →
      ∀ e : Equipment,
        lookupEq (releaseEquipment rel ids s) eid = some e →
        e.status = healthy ∧ e.anomaly = none ∧ e.issues = [] ∧
          e.health = 96 + 4 * rel eid := by
  intro ids
  induction ids with
  | nil => intro s eid h; cases h
  | cons id ids ih =>
    intro s eid hmem e hl
    rw [releaseEquipment_cons] at hl
    by_cases hin : eid ∈ ids
    · exact ih _ eid hin e hl
    · have heq : eid = id := by
        rcases List.mem_cons.mp hmem with h | h
        · exact h
        · exact absurd h hin
      subst heq
      rw [releaseEquipment_lookup_notmem rel ids _ eid hin,
        lookupEq_updateEq, if_pos rfl] at hl
      cases hle : lookupEq s eid with
      | none => rw [hle] at hl; cases hl
      | some e0 =>
        rw [hle] at hl
        simp only [Option.map_some'] at hl
        obtain rfl : _ = e := Option.some_inj.mp hl
        exact ⟨rfl, rfl, rfl, rfl⟩

theorem processAnomaly_length_mono (now : ℕ) (r : AnomalyRands) (gen : ℚ)
    (st : SimState) (i : ℕ) :
    st.anomalies.length ≤ (processAnomaly now r gen st i).anomalies.length := by
  unfold processAnomaly
  cases hg : st.anomalies.get? i with
  | none => exact le_refl _
  | some a =>
    dsimp only
    repeat' split
    all_goals
      simp [releaseEquipment_anomalies,
        generateDustAccumulationAfterStorm_structure, List.length_set]

theorem processAnomaly_get?_ne (now : ℕ) (r : AnomalyRands) (gen : ℚ)
    (st : SimState) (i j : ℕ) (hne : j ≠ i)
    (hi : i < st.anomalies.length) :
    (processAnomaly now r gen st j).anomalies.get? i =
      st.anomalies.get? i := by
  unfold processAnomaly
  cases hg : st.anomalies.get? j with
  | none => rfl
  | some a =>
    dsimp only
    repeat' split
    all_goals
      simp [releaseEquipment_anomalies,
        generateDustAccumulationAfterStorm_structure]
    all_goals
      try rw [List.getElem?_append_left (by simpa using hi)]
    all_goals
      exact List.getElem?_set_ne hne

theorem processAnomaly_resolves (now : ℕ) (r : AnomalyRands) (gen : ℚ)
    (st : SimState) (i : ℕ) (a : Anomaly)
    (hg : st.anomalies.get? i = some a) (hact : a.active = true)
    (helapsed : (200 : ℚ) ≤ ((now : ℚ) - (a.timestamp : ℚ)) / 1000) :
    (processAnomaly now r gen st i).anomalies.get? i =
      some { a with active := false, resolvedAt := some now,
                    resolvedBy := some ResolvedBy.autoTimeout } := by
  have hi : i < st.anomalies.length := (List.get?_eq_some.mp hg).1
  unfold processAnomaly
  cases hg2 : st.anomalies.get? i with
  | none => rw [hg] at hg2; cases hg2
  | some a2 =>
    rw [hg] at hg2
    obtain rfl : a = a2 := Option.some_inj.mp hg2
    dsimp only
    rw [if_pos hact, if_pos helapsed]
    repeat' split
    all_goals
      simp only [releaseEquipment_anomalies, updateSimulationQ_anomalies,
        addAlert_anomalies, addLog_anomalies,
        generateDustAccumulationAfterStorm_structure,
        List.get?_eq_getElem?]
    all_goals
      try rw [List.getElem?_append_left (by simpa using hi)]
    all_goals
      exact List.getElem?_set_eq_of_lt _ (by simpa using hi)

theorem checkFold_length_mono (now : ℕ) (rands : ℕ → AnomalyRands)
    (gen : ℚ) :
    ∀ (l : List ℕ) (st : SimState),
      st.anomalies.length ≤
        (l.foldl (fun st j => processAnomaly now (rands j) gen st j)
          st).anomalies.length := by
  intro l
  induction l with
  | nil => intro st; exact le_refl _
  | cons x xs ih =>
    intro st
    rw [List.foldl_cons]
    exact le_trans (processAnomaly_length_mono now (rands x) gen st x)
      (ih _)

theorem checkFold_get?_notmem (now : ℕ) (rands : ℕ → AnomalyRands)
    (gen : ℚ) :
    ∀ (l : List ℕ) (st : SimState) (i : ℕ), i ∉ l →
      i < st.anomalies.length →
      (l.foldl (fun st j => processAnomaly now (rands j) gen st j)
        st).anomalies.get? i = st.anomalies.get? i := by
  intro l
  induction l with
  | nil => intro st i _ _; rfl
  | cons x xs ih =>
    intro st i hnot hi
    rw [List.mem_cons] at hnot
    push_neg at hnot
    rw [List.foldl_cons]
    rw [ih _ i hnot.2
      (lt_of_lt_of_le hi (processAnomaly_length_mono now (rands x) gen st
        x))]
    exact processAnomaly_get?_ne now (rands x) gen st i x
      (fun h => hnot.1 (h ▸ rfl)) hi

theorem checkFold_range_resolves (now : ℕ) (rands : ℕ → AnomalyRands)
    (gen : ℚ) (s : SimState) :
    ∀ (n i : ℕ) (a : Anomaly), i < n → s.anomalies.get? i = some a →
      a.active = true →
      (200 : ℚ) ≤ ((now : ℚ) - (a.timestamp : ℚ)) / 1000 →
      ((List.range n).foldl
        (fun st j => processAnomaly now (rands j) gen st j)
        s).anomalies.get? i =
        some { a with active := false, resolvedAt := some now,
                      resolvedBy := some ResolvedBy.autoTimeout } := by
  intro n
  induction n with
  | zero => intro i a h; cases h
  | succ n ih =>
    intro i a hin hg hact helapsed
    have hi : i < s.anomalies.length := (List.get?_eq_some.mp hg).1
    rw [List.range_succ, List.foldl_append, List.foldl_cons,
      List.foldl_nil]
    by_cases hcase : i < n
    · rw [processAnomaly_get?_ne now (rands n) gen _ i n
        (fun h => (Nat.lt_irrefl n (h ▸ hcase))) (lt_of_lt_of_le hi
          (checkFold_length_mono now rands gen (List.range n) s))]
      exact ih i a hcase hg hact helapsed
    · have hieq : i = n := by omega
      subst hieq
      have hpres := checkFold_get?_notmem now rands gen (List.range i) s i
        (by simp) hi
      exact processAnomaly_resolves now (rands i) gen _ i a
        (by rw [hpres]; exact hg) hact helapsed

/-- Every anomaly at least 200 seconds old when the sweep runs ends the
sweep resolved by `auto-timeout`, its escalation level untouched. -/
theorem checkAnomalies_resolves (now : ℕ) (rands : ℕ → AnomalyRands)
    (gen : ℚ) (s : SimState) (i : ℕ) (a : Anomaly)
    (hg : s.anomalies.get? i = some a) (hact : a.active = true)
    (helapsed : (200 : ℚ) ≤ ((now : ℚ) - (a.timestamp : ℚ)) / 1000) :
    (checkAnomalies now rands gen s).anomalies.get? i =
      some { a with active := false, resolvedAt := some now,
                    resolvedBy := some ResolvedBy.autoTimeout } := by
  unfold checkAnomalies
  dsimp only
  rw [updateSimulationQ_anomalies]
  exact checkFold_range_resolves now rands gen s s.anomalies.length i a
    (List.get?_eq_some.mp hg).1 hg hact helapsed

/-- The auto-timeout of an equipment anomaly restores every claimed
equipment unit: healthy, unclaimed, no issues, health in [96, 100]. -/
theorem processAnomaly_release_spec (now : ℕ) (r : AnomalyRands) (gen : ℚ)
    (s : SimState) (i : ℕ) (a : Anomaly)
    (hg : s.anomalies.get? i = some a) (hact : a.active = true)
    (helapsed : (200 : ℚ) ≤ ((now : ℚ) - (a.timestamp : ℚ)) / 1000)
    (hty : a.type = panelFault ∨ a.type = dustAccumulation ∨
      a.type = inverterOverload)
    (hrel : ∀ id, UnitRand (r.release id)) :
    ∀ eid ∈ a.affectedEquipment, ∀ e : Equipment,
      lookupEq (processAnomaly now r gen s i) eid = some e →
      e.status = healthy ∧ e.anomaly = none ∧ e.issues = [] ∧
        96 ≤ e.health ∧ e.health ≤ 100 := by
  intro eid hmem e hl
  have henv : ¬ (a.type = dustStorm ∨ a.type = cloudCover) := by
    rcases hty with h | h | h <;> simp [h]
  unfold processAnomaly at hl
  rw [hg] at hl
  dsimp only at hl
  rw [if_pos hact, if_pos helapsed, if_neg henv, if_pos hty] at hl
  obtain ⟨h1, h2, h3, h4⟩ :=
    releaseEquipment_lookup_mem r.release a.affectedEquipment _ eid hmem e
      hl
  obtain ⟨hr0, hr1⟩ := hrel eid
  refine ⟨h1, h2, h3, ?_, ?_⟩ <;> rw [h4] <;> nlinarith

/-- The `claimRandomPanels` loop never touches the overrides. -/
theorem claimRandomPanels_overrideDust (aid : ℕ) (st : EquipmentStatus)
    (iss : List String) (hr : ℚ) (n : ℕ) (picks : List ℕ) (s : SimState) :
    (claimRandomPanels aid st iss hr n picks s).2.overrideDust =
      s.overrideDust := by
  unfold claimRandomPanels
  exact foldl_invariant
    (claimPanelStep aid st iss hr (panelIdsOf s) picks)
    (fun acc => acc.2.overrideDust = s.overrideDust)
    (fun acc x h => by
      dsimp only
      unfold claimPanelStep
      cases panelIdsOf s |>.get? (picks.getD x 0) with
      | none => exact h
      | some eid => dsimp only; split <;> exact h)
    _ _ rfl

theorem generateDustAccumulationAfterStorm_overrideDust (now num : ℕ)
    (picks : List ℕ) (gen : ℚ) (s : SimState) :
    (generateDustAccumulationAfterStorm now num picks gen s).overrideDust =
      s.overrideDust := by
  unfold generateDustAccumulationAfterStorm
  dsimp only
  rw [updateSimulationQ_overrideDust]
  exact claimRandomPanels_overrideDust now degraded ["dust accumulation"]
    25 num picks s

/-- The auto-timeout of a dust storm clears the dust override; the
auto-timeout of a cloud-cover anomaly clears the cloud override. -/
theorem processAnomaly_env_clear (now : ℕ) (r : AnomalyRands) (gen : ℚ)
    (s : SimState) (i : ℕ) (a : Anomaly)
    (hg : s.anomalies.get? i = some a) (hact : a.active = true)
    (helapsed : (200 : ℚ) ≤ ((now : ℚ) - (a.timestamp : ℚ)) / 1000) :
    (a.type = dustStorm →
      (processAnomaly now r gen s i).overrideDust = none) ∧
    (a.type = cloudCover →
      (processAnomaly now r gen s i).overrideCloud = none) := by
  constructor
  · intro hty
    unfold processAnomaly
    rw [hg]
    dsimp only
    rw [if_pos hact, if_pos helapsed, if_pos (Or.inl hty),
      if_neg (by rw [hty]; simp), if_pos hty]
    rw [generateDustAccumulationAfterStorm_overrideDust,
      updateSimulationQ_overrideDust]
  · intro hty
    unfold processAnomaly
    rw [hg]
    dsimp only
    rw [if_pos hact, if_pos helapsed, if_pos (Or.inr hty),
      if_neg (by rw [hty]; simp), if_neg (by rw [hty]; simp)]
    rw [updateSimulationQ_overrideCloud]

/-- C3: in one `checkAnomalies` sweep, every anomaly active for at least
200 seconds is resolved by `auto-timeout` with its escalation level
unchanged (the 200-second check precedes the 60-second escalation check);
its equipment is released to healthy with health in [96, 100], or the
matching environment override is cleared. -/
theorem c3_auto_timeout_before_escalation :
    (∀ (now : ℕ) (rands : ℕ → AnomalyRands) (gen : ℚ) (s : SimState)
      (i : ℕ) (a : Anomaly), s.anomalies.get? i = some a →
      a.active = true →
      (200 : ℚ) ≤ ((now : ℚ) - (a.timestamp : ℚ)) / 1000 →
      (checkAnomalies now rands gen s).anomalies.get? i =
        some { a with active := false, resolvedAt := some now,
                      resolvedBy := some ResolvedBy.autoTimeout }) ∧
    (∀ (now : ℕ) (r : AnomalyRands) (gen : ℚ) (s : SimState) (i : ℕ)
      (a : Anomaly), s.anomalies.get? i = some a → a.active = true →
      (200 : ℚ) ≤ ((now : ℚ) - (a.timestamp : ℚ)) / 1000 →
      (a.type = panelFault ∨ a.type = dustAccumulation ∨
        a.type = inverterOverload) →
      (∀ id, UnitRand (r.release id)) →
      ∀ eid ∈ a.affectedEquipment, ∀ e : Equipment,
        lookupEq (processAnomaly now r gen s i) eid = some e →
        e.status = healthy ∧ e.anomaly = none ∧ e.issues = [] ∧
          96 ≤ e.health ∧ e.health ≤ 100) ∧
    (∀ (now : ℕ) (r : AnomalyRands) (gen : ℚ) (s : SimState) (i : ℕ)
      (a : Anomaly), s.anomalies.get? i = some a → a.active = true →
      (200 : ℚ) ≤ ((now : ℚ) - (a.timestamp : ℚ)) / 1000 →
      (a.type = dustStorm →
        (processAnomaly now r gen s i).overrideDust = none) ∧
      (a.type = cloudCover →
        (processAnomaly now r gen s i).overrideCloud = none)) :=
  ⟨checkAnomalies_resolves, processAnomaly_release_spec,
   processAnomaly_env_clear⟩

/-- Witness for C3: a panel fault created at time 0 is auto-resolved by
the sweep at time 200000 ms (exactly 200 s), with escalation level still
0. -/
theorem c3_witness :
    (checkAnomalies 200000 exRands 0 exC3).anomalies.get? 0 =
      some { exC3anomaly with active := false, resolvedAt := some 200000,
                              resolvedBy := some ResolvedBy.autoTimeout } :=
  c3_auto_timeout_before_escalation.1 200000 exRands 0 exC3 0 exC3anomaly
    (by decide) (by decide) (by norm_num [exC3anomaly])

/-! ### The escalation cap (claim C4) -/

theorem advanceTimeQ_anomalies (cur : ℕ) (gen : ℚ) (s : SimState) :
    (advanceTimeQ cur gen s).anomalies = s.anomalies := by
  by_cases hz : hoursOf (cur + 3600000) = 0
  · simp only [advanceTimeQ, hz, if_true, updateSimulationQ_anomalies,
      addAlert_anomalies, addLog_anomalies]
  · have hz2 : (hoursOf (cur + 3600000) = 0) = False := eq_false hz
    simp only [advanceTimeQ, hz2, if_false, updateSimulationQ_anomalies,
      addAlert_anomalies, addLog_anomalies]

theorem advanceTimeQ_equipmentHealth (cur : ℕ) (gen : ℚ) (s : SimState) :
    (advanceTimeQ cur gen s).equipmentHealth = s.equipmentHealth := by
  by_cases hz : hoursOf (cur + 3600000) = 0
  · simp only [advanceTimeQ, hz, if_true, updateSimulationQ_equipmentHealth,
      addAlert_equipmentHealth, addLog_equipmentHealth]
  · have hz2 : (hoursOf (cur + 3600000) = 0) = False := eq_false hz
    simp only [advanceTimeQ, hz2, if_false,
      updateSimulationQ_equipmentHealth, addAlert_equipmentHealth,
      addLog_equipmentHealth]

theorem degradeEquipmentHealth_anomalies (shuffled : List String)
    (drand : String → ℚ) (s : SimState) :
    (degradeEquipmentHealth shuffled drand s).anomalies = s.anomalies := by
  unfold degradeEquipmentHealth
  dsimp only
  exact foldl_invariant
    (fun st equipmentId =>
      updateEq st equipmentId (fun e =>
        { e with health := max 75 (e.health - (1/10 + drand equipmentId * (4/10))) }))
    (fun (st : SimState) => st.anomalies = s.anomalies)
    (fun st x h => by dsimp only; rw [updateEq_anomalies]; exact h) _ _ rfl

theorem initializeSystemState_anomalies (now : ℕ) (r : String → ℚ)
    (preserveLogs : Bool) (s : SimState) :
    (initializeSystemState now r preserveLogs s).anomalies = [] := by
  unfold initializeSystemState
  dsimp only
  split <;> split <;> rfl

theorem maxEscalation_eq_ite (t : AnomalyType) :
    (if t = dustStorm ∨ t = cloudCover then 1 else 3) = maxEscalation t := by
  cases t <;> simp [maxEscalation]

theorem escInv_of_anomalies_eq {s s' : SimState}
    (h : s'.anomalies = s.anomalies) (hs : EscInv s) : EscInv s' := by
  intro a ha
  rw [h] at ha
  exact hs a ha

theorem escInv_append_zero {s : SimState} {l : List Anomaly}
    {na : Anomaly} (hl : l = s.anomalies ++ [na])
    (h0 : na.escalationLevel = 0) (hs : EscInv s) :
    ∀ a ∈ l, a.escalationLevel ≤ maxEscalation a.type := by
  intro a ha
  rw [hl, List.mem_append] at ha
  rcases ha with ha | ha
  · exact hs a ha
  · rw [List.mem_singleton] at ha
    subst ha
    rw [h0]
    exact Nat.zero_le _

theorem escInv_of_pairs {s' s : SimState} {p : ℕ × AnomalyType}
    (hmap : s'.anomalies.map escPair = s.anomalies.map escPair ++ [p])
    (hp : p.1 = 0) (hs : EscInv s) : EscInv s' := by
  intro b hb
  have hbp : escPair b ∈ s'.anomalies.map escPair :=
    List.mem_map_of_mem _ hb
  rw [hmap, List.mem_append] at hbp
  rcases hbp with hbp | hbp
  · obtain ⟨a, ha, hpa⟩ := List.mem_map.mp hbp
    have h1 : a.escalationLevel = b.escalationLevel :=
      congrArg Prod.fst hpa
    have h2 : a.type = b.type := congrArg Prod.snd hpa
    rw [← h1, ← h2]
    exact hs a ha
  · rw [List.mem_singleton] at hbp
    have h0 : b.escalationLevel = 0 := by
      rw [← hp, ← hbp]
      rfl
    rw [h0]
    exact Nat.zero_le _

theorem generateAnomaly_pairs (now : ℕ) (ty : AnomalyType)
    (locRand startRow startCol numToAffect : ℕ) (picks : List ℕ) (gen : ℚ)
    (s : SimState) :
    (generateAnomaly now ty locRand startRow startCol numToAffect picks gen
        s).anomalies.map escPair = s.anomalies.map escPair ++ [(0, ty)] := by
  cases ty
  case inverterOverload =>
    simp [generateAnomaly, anomalyTypeData]
    split <;> simp [escPair]
  all_goals
    simp [generateAnomaly, claimRandomPanels_anomalies, anomalyTypeData,
      escPair]

theorem generateAnomalyForEquipment_pairs (now locRand : ℕ)
    (ty : AnomalyType) (eid : String) (gen : ℚ) (s : SimState)
    (h1 : ty ≠ dustStorm) (h2 : ty ≠ cloudCover) :
    (generateAnomalyForEquipment now locRand ty eid gen
        s).anomalies.map escPair = s.anomalies.map escPair ++ [(0, ty)] := by
  cases ty <;> first
    | exact absurd rfl h1
    | exact absurd rfl h2
    | simp [generateAnomalyForEquipment, escPair]

theorem escInv_set {l : List Anomaly} {i : ℕ} {a : Anomaly}
    (h : a.escalationLevel ≤ maxEscalation a.type)
    (hl : ∀ b ∈ l, b.escalationLevel ≤ maxEscalation b.type) :
    ∀ b ∈ l.set i a, b.escalationLevel ≤ maxEscalation b.type := by
  intro b hb
  rcases List.mem_or_eq_of_mem_set hb with hb | rfl
  · exact hl b hb
  · exact h

theorem generateAnomalyForEquipment_escInv (now locRand : ℕ)
    (ty : AnomalyType) (eid : String) (gen : ℚ) (s : SimState)
    (hs : EscInv s) :
    EscInv (generateAnomalyForEquipment now locRand ty eid gen s) := by
  by_cases henv : ty = dustStorm ∨ ty = cloudCover
  · unfold generateAnomalyForEquipment
    rw [if_pos henv]
    exact hs
  · exact escInv_of_pairs
      (generateAnomalyForEquipment_pairs now locRand ty eid gen s
        (fun h => henv (Or.inl h)) (fun h => henv (Or.inr h))) rfl hs

theorem monitorStep_escInv (now : ℕ) (locRands : String → ℕ)
    (tyRands : String → ℚ) (gen : ℚ) (s : SimState) (eid : String)
    (hs : EscInv s) : EscInv (monitorStep now locRands tyRands gen s eid) := by
  unfold monitorStep
  cases hl : lookupEq s eid with
  | none => exact hs
  | some e =>
    dsimp only
    split
    · intro b hb
      simp only [addAlert_anomalies, addLog_anomalies] at hb
      exact generateAnomalyForEquipment_escInv now (locRands eid) _ eid gen s
        hs b hb
    · exact hs

theorem monitorEquipmentHealth_escInv (now : ℕ) (locRands : String → ℕ)
    (tyRands : String → ℚ) (gen : ℚ) (s : SimState) (hs : EscInv s) :
    EscInv (monitorEquipmentHealth now locRands tyRands gen s) := by
  unfold monitorEquipmentHealth
  exact foldl_invariant (monitorStep now locRands tyRands gen) EscInv
    (fun st x h => monitorStep_escInv now locRands tyRands gen st x h) _ _ hs

theorem processAnomaly_escInv (now : ℕ) (r : AnomalyRands) (gen : ℚ)
    (s : SimState) (i : ℕ) (hs : EscInv s) :
    EscInv (processAnomaly now r gen s i) := by
  unfold processAnomaly
  cases hg : s.anomalies.get? i with
  | none => exact hs
  | some a =>
    have hmem : a ∈ s.anomalies := List.get?_mem hg
    dsimp only
    by_cases hact : a.active = true
    · rw [if_pos hact]
      by_cases helapsed : (200 : ℚ) ≤ ((now : ℚ) - (a.timestamp : ℚ)) / 1000
      · rw [if_pos helapsed]
        have hres : ∀ b ∈ s.anomalies.set i
            { a with active := false, resolvedAt := some now,
                     resolvedBy := some ResolvedBy.autoTimeout },
            b.escalationLevel ≤ maxEscalation b.type :=
          escInv_set (hs a hmem) hs
        repeat' split
        all_goals intro b hb
        all_goals
          simp only [releaseEquipment_anomalies, updateSimulationQ_anomalies,
            addAlert_anomalies, addLog_anomalies,
            generateDustAccumulationAfterStorm_structure, List.mem_append,
            List.mem_singleton] at hb
        all_goals
          first
            | exact hres b hb
            | rcases hb with hb | rfl
        all_goals
          first
            | exact hres b hb
            | exact Nat.zero_le _
      · rw [if_neg helapsed]
        by_cases hesc : (60 : ℚ) ≤ ((now : ℚ) - (a.lastEscalation : ℚ)) / 1000 ∧
            a.escalationLevel < 3
        · rw [if_pos hesc]
          by_cases hcap : a.escalationLevel <
              (if a.type = dustStorm ∨ a.type = cloudCover then 1 else 3)
          · rw [if_pos hcap]
            intro b hb
            simp only [addAlert_anomalies, addLog_anomalies] at hb
            refine escInv_set ?_ hs b hb
            have h2 : a.escalationLevel < maxEscalation a.type :=
              maxEscalation_eq_ite a.type ▸ hcap
            exact h2
          · rw [if_neg hcap]
            exact hs
        · rw [if_neg hesc]
          exact hs
    · rw [if_neg hact]
      exact hs

theorem checkAnomalies_escInv (now : ℕ) (rands : ℕ → AnomalyRands)
    (gen : ℚ) (s : SimState) (hs : EscInv s) :
    EscInv (checkAnomalies now rands gen s) := by
  unfold checkAnomalies
  dsimp only
  refine escInv_of_anomalies_eq (updateSimulationQ_anomalies now gen _) ?_
  exact foldl_invariant (fun st i => processAnomaly now (rands i) gen st i)
    EscInv (fun st x h => processAnomaly_escInv now (rands x) gen st x h)
    _ _ hs

theorem correctAnomaly_escInv (now : ℕ) (r : AnomalyRands) (gen : ℚ)
    (anomalyId : ℕ) (s : SimState) (hs : EscInv s) :
    EscInv (correctAnomaly now r gen anomalyId s) := by
  unfold correctAnomaly
  cases hf : s.anomalies.findIdx? (fun a => a.id = anomalyId) with
  | none => exact hs
  | some i =>
    dsimp only
    cases hg : s.anomalies.get? i with
    | none => exact hs
    | some a =>
      have hmem : a ∈ s.anomalies := List.get?_mem hg
      dsimp only
      by_cases hact : a.active = true
      · rw [if_pos hact]
        have hres : ∀ b ∈ s.anomalies.set i
            { a with active := false, resolvedAt := some now,
                     resolvedBy := some ResolvedBy.user },
            b.escalationLevel ≤ maxEscalation b.type :=
          escInv_set (hs a hmem) hs
        repeat' split
        all_goals intro b hb
        all_goals
          simp only [releaseEquipment_anomalies, updateSimulationQ_anomalies,
            addAlert_anomalies, addLog_anomalies,
            generateDustAccumulationAfterStorm_structure, List.mem_append,
            List.mem_singleton] at hb
        all_goals
          first
            | exact hres b hb
            | rcases hb with hb | rfl
        all_goals
          first
            | exact hres b hb
            | exact Nat.zero_le _
      · rw [if_neg hact]
        exact hs

theorem step_escInv {s t : SimState} (hstep : Step s t) (hs : EscInv s) :
    EscInv t := by
  cases hstep with
  | updateSim now gen =>
    exact escInv_of_anomalies_eq (updateSimulationQ_anomalies now gen s) hs
  | advance cur gen =>
    exact escInv_of_anomalies_eq (advanceTimeQ_anomalies cur gen s) hs
  | generate now ty locRand startRow startCol numToAffect picks gen =>
    exact escInv_of_pairs
      (generateAnomaly_pairs now ty locRand startRow startCol numToAffect
        picks gen s) rfl hs
  | generateForEquipment now locRand ty eid gen =>
    exact generateAnomalyForEquipment_escInv now locRand ty eid gen s hs
  | monitor now locRands tyRands gen =>
    exact monitorEquipmentHealth_escInv now locRands tyRands gen s hs
  | degrade shuffled drand hperm hdrand =>
    exact escInv_of_anomalies_eq
      (degradeEquipmentHealth_anomalies shuffled drand s) hs
  | check now rands gen hrelease =>
    exact checkAnomalies_escInv now rands gen s hs
  | correct now r gen anomalyId hrelease =>
    exact correctAnomaly_escInv now r gen anomalyId s hs
  | reinitialize now r preserveLogs hr =>
    intro b hb
    rw [initializeSystemState_anomalies] at hb
    exact absurd hb (List.not_mem_nil b)

theorem reachable_escInv {s : SimState} (h : Reachable s) : EscInv s := by
  obtain ⟨t0, r, hr, hsteps⟩ := h
  induction hsteps with
  | refl => intro b hb; exact absurd hb (List.not_mem_nil b)
  | tail hab hbc ih => exact step_escInv hbc ih

theorem processAnomaly_escalation_stamp (now : ℕ) (r : AnomalyRands)
    (gen : ℚ) (s : SimState) (i : ℕ) (a a' : Anomaly)
    (hg : s.anomalies.get? i = some a)
    (hg' : (processAnomaly now r gen s i).anomalies.get? i = some a')
    (hlt : a.escalationLevel < a'.escalationLevel) :
    a'.lastEscalation = now := by
  have hi : i < s.anomalies.length := (List.get?_eq_some.mp hg).1
  have hgE : s.anomalies[i]? = some a := by
    rw [← List.get?_eq_getElem?]; exact hg
  revert hg'
  unfold processAnomaly
  cases hg2 : s.anomalies.get? i with
  | none => rw [hg] at hg2; cases hg2
  | some a2 =>
    rw [hg] at hg2
    obtain rfl : a = a2 := Option.some_inj.mp hg2
    dsimp only
    intro hg'
    repeat' split at hg'
    all_goals
      simp only [releaseEquipment_anomalies, updateSimulationQ_anomalies,
        addAlert_anomalies, addLog_anomalies,
        generateDustAccumulationAfterStorm_structure,
        List.get?_eq_getElem?] at hg'
    all_goals
      try rw [List.getElem?_append_left (by simpa using hi)] at hg'
    all_goals
      try rw [List.getElem?_set_eq_of_lt _ (by simpa using hi)] at hg'
    all_goals
      try rw [hgE] at hg'
    all_goals
      obtain rfl := Option.some_inj.mp hg'
    all_goals
      first
        | rfl
        | exact absurd hlt (lt_irrefl _)

/-- C4: in every reachable state, every anomaly's escalation level is at
most 3 when its type is panel-fault, dust-accumulation or
inverter-overload and at most 1 when its type is dust-storm or
cloud-cover (`EscInv`), no matter how long it stays active; and whenever
the per-anomaly sweep step raises an anomaly's escalation level, the new
record's `lastEscalation` is stamped with the sweep's `Date.now()`. -/
theorem c4_escalation_cap :
    (∀ s : SimState, Reachable s → EscInv s) ∧
    (∀ (now : ℕ) (r : AnomalyRands) (gen : ℚ) (s : SimState) (i : ℕ)
      (a a' : Anomaly), s.anomalies.get? i = some a →
      (processAnomaly now r gen s i).anomalies.get? i = some a' →
      a.escalationLevel < a'.escalationLevel →
      a'.lastEscalation = now) :=
  ⟨fun _ h => reachable_escInv h, processAnomaly_escalation_stamp⟩

/-- Witness for C4: the freshly initialized plant is reachable, and the
cap invariant holds there. -/
theorem c4_witness :
    Reachable (initState 0 exRand) ∧ EscInv (initState 0 exRand) := by
  have hr : Reachable (initState 0 exRand) :=
    ⟨0, exRand, fun id => by constructor <;> norm_num [exRand],
     Relation.ReflTransGen.refl⟩
  exact ⟨hr, c4_escalation_cap.1 (initState 0 exRand) hr⟩

/-- C8: `validateConversationHistory` always leaves the history strictly
alternating user/assistant starting with a user message (and, being of
even length, ending with an assistant message when nonempty); and the
history stored after a successful `sendMessage` holds at most 25
entries. -/
theorem c8_history_repair_and_truncation :
    (∀ history : List ChatMessage,
      Alternating (validateConversationHistory history) ∧
      (validateConversationHistory history).length % 2 = 0) ∧
    (∀ (history : List ChatMessage) (prompt reply : String),
      (sendMessageHistory history prompt reply).length ≤ 25) :=
  ⟨fun history =>
    ⟨alternating_of_map _ (validateConversationHistory_spec history).1,
     (validateConversationHistory_spec history).2⟩,
   sendMessageHistory_length_le⟩

end SolarAI
